import Mathlib

/-!
# Clone step of the vSphere builder: validation and execution protocol

A shallow embedding of `builder/vsphere/clone/step_clone.go`:

* `CloneConfig.Prepare` (lines 58-75), the configuration validator;
* `StepCloneVM.Run` (lines 84-142), the clone orchestration step.

Go values are embedded as follows.  An `error` is a `GoError` (`nil` is
`Option.none`), a slice is a `List`, `int64` and `int` are `Int` (the code only
copies them or compares them with zero, so no overflow can occur), the state
bag is a finite map from keys to dynamically typed values, and a run-time
panic (failed type assertion, method call on a nil interface) is the result
`none` of `StepCloneVM.Run`.  Everything the step calls outside this file
(the storage validator, `path.Join`, the Unicode case table behind
`strings.ToLower`, the driver) is a parameter or a field holding a function.
A Go map and a Go slice are references: the clone request shares one of each
with the configuration, and what the driver's clone call writes to them is
part of the behaviour of that call.
-/

namespace Clone

/-! ## Go errors -/

/-- A Go `error` value.  `errorString` is what `errors.New` and a `fmt.Errorf`
without the `%w` verb return (no `Unwrap` method); `wrapError` is what
`fmt.Errorf` returns when its format has one `%w` verb. -/
inductive GoError where
  | errorString (s : String)
  | wrapError (msg : String) (err : GoError)
  deriving DecidableEq, Repr

/-- The method `Error() string`. -/
def GoError.Error : GoError → String
  | .errorString s => s
  | .wrapError msg _ => msg

/-- The function `errors.Unwrap`: the wrapped error, `nil` when there is none. -/
def errors.Unwrap : GoError → Option GoError
  | .errorString _ => none
  | .wrapError _ err => some err

/-- The function `errors.New`. -/
def errors.New (text : String) : GoError := .errorString text

/-- The text `fmt.Sprintf` produces for a format whose only verb is `%s`, on
operands already rendered as text (an `error` operand is rendered by its
`Error()` method).  Each `%s` consumes the next operand; a `%s` without an
operand prints `%!s(MISSING)`. -/
def fmt.sprintfChars : List Char → List String → List Char
  | '%' :: 's' :: rest, a :: args => a.data ++ fmt.sprintfChars rest args
  | '%' :: 's' :: rest, [] => "%!s(MISSING)".data ++ fmt.sprintfChars rest []
  | c :: rest, args => c :: fmt.sprintfChars rest args
  | [], _ => []

/-- The function `fmt.Errorf` for formats without the `%w` verb (the only ones in
this file): it returns `errors.New` of the formatted text. -/
def fmt.Errorf (format : String) (args : List String) : GoError :=
  errors.New (String.mk (fmt.sprintfChars format.data args))

/-! ## Configuration types -/

/-- Modelled from the spec: the type declaration `common.DiskConfig` (package
`builder/vsphere/common`, not part of this file).  One storage entry: disk
size, eager-scrub flag, thin-provision flag, controller index; the field names
are the ones `StepCloneVM.Run` reads. -/
structure DiskConfig where
  DiskSize : Int
  DiskThinProvisioned : Bool
  DiskEagerlyScrub : Bool
  DiskControllerIndex : Int
  deriving DecidableEq, Repr

/-- Modelled from the spec: the type declaration `common.StorageConfig`
(package `builder/vsphere/common`): the controller types and the ordered list
of storage entries, under the field names `StepCloneVM.Run` reads. -/
structure StorageConfig where
  DiskControllerType : List String
  Storage : List DiskConfig
  deriving DecidableEq, Repr

/-- Modelled from the spec: the type declaration `common.LocationConfig`
(package `builder/vsphere/common`): VM name, target folder, cluster, host,
resource pool and datastore, under the field names `StepCloneVM.Run` reads. -/
structure LocationConfig where
  VMName : String
  Folder : String
  Cluster : String
  Host : String
  ResourcePool : String
  Datastore : String
  deriving DecidableEq, Repr

/-- The struct `vAppConfig` (lines 22-31).  A Go `map[string]string` is kept as
the list of its key/value pairs; the step only passes it on. -/
structure vAppConfig where
  Properties : List (String × String)
  deriving DecidableEq, Repr

/-- The struct `CloneConfig` (lines 33-56). -/
structure CloneConfig where
  Template : String
  DiskSize : Int
  LinkedClone : Bool
  Network : String
  MacAddress : String
  Notes : String
  Destroy : Bool
  VAppConfig : vAppConfig
  StorageConfig : StorageConfig
  deriving DecidableEq, Repr

/-! ## Driver-side types -/

/-- Modelled from the spec: the type declaration `driver.Disk` (package
`builder/vsphere/driver`), with the four fields `StepCloneVM.Run` sets. -/
structure Disk where
  DiskSize : Int
  DiskEagerlyScrub : Bool
  DiskThinProvisioned : Bool
  ControllerIndex : Int
  deriving DecidableEq, Repr

/-- Modelled from the spec: the type declaration `driver.StorageConfig`
(package `builder/vsphere/driver`), with the two fields `StepCloneVM.Run`
sets. -/
structure DriverStorageConfig where
  DiskControllerType : List String
  Storage : List Disk
  deriving DecidableEq, Repr

/-- Modelled from the spec: the type declaration `driver.CloneConfig` (package
`builder/vsphere/driver`), the clone request, with the thirteen fields
`StepCloneVM.Run` sets. -/
structure DriverCloneConfig where
  Name : String
  Folder : String
  Cluster : String
  Host : String
  ResourcePool : String
  Datastore : String
  LinkedClone : Bool
  Network : String
  MacAddress : String
  Annotation : String
  VAppProperties : List (String × String)
  PrimaryDiskSize : Int
  StorageConfig : DriverStorageConfig
  deriving DecidableEq, Repr

/-- A `context.Context`, of which only the identity matters here: it is handed
to the driver's clone call untouched. -/
structure Context where
  id : Nat
  deriving DecidableEq, Repr

/-- A `packersdk.Ui` value, identified by a number. -/
structure Ui where
  id : Nat
  deriving DecidableEq, Repr

/-- A `driver.VirtualMachine` value: a reference naming the object, and the
behaviour of its method `Clone(ctx, config)`.  `Clone` is what the call
returns, a pair of a possibly nil virtual machine and a possibly nil error.
`CloneWrites` is what the call leaves in the two reference values of the
request that its caller still holds: the contents of the map `VAppProperties`
and the leading elements of the backing array of the slice
`StorageConfig.DiskControllerType`.  A call that only reads the request leaves
`(config.VAppProperties, config.StorageConfig.DiskControllerType)`. -/
inductive VirtualMachine where
  | mk (ref : String)
      (Clone : Context → DriverCloneConfig → Option VirtualMachine × Option GoError)
      (CloneWrites : Context → DriverCloneConfig → List (String × String) × List String)

/-- The reference naming a virtual machine. -/
def VirtualMachine.ref : VirtualMachine → String
  | .mk r _ _ => r

/-- The method `Clone` of a virtual machine: what the call returns. -/
def VirtualMachine.Clone :
    VirtualMachine → Context → DriverCloneConfig → Option VirtualMachine × Option GoError
  | .mk _ f _ => f

/-- The method `Clone` of a virtual machine: what the call leaves in the map and
in the slice elements of the request. -/
def VirtualMachine.CloneWrites :
    VirtualMachine → Context → DriverCloneConfig → List (String × String) × List String
  | .mk _ _ w => w

/-- A clone call that only reads its request. -/
def readOnly : Context → DriverCloneConfig → List (String × String) × List String :=
  fun _ config => (config.VAppProperties, config.StorageConfig.DiskControllerType)

/-- A `driver.Driver` value, reduced to the two methods the step calls:
`PreCleanVM(ui, vmPath, force, cluster, host, resourcePool) error` and
`FindVM(name) (VirtualMachine, error)`. -/
structure Driver where
  PreCleanVM : Ui → String → Bool → String → String → String → Option GoError
  FindVM : String → Option VirtualMachine × Option GoError

/-! ## The state bag -/

/-- A dynamically typed value held in the state bag. -/
inductive Value where
  | ui (u : Ui)
  | driver (d : Driver)
  | error (e : GoError)
  | bool (b : Bool)
  | vm (v : VirtualMachine)
  | str (s : String)

/-- A `multistep.StateBag`: the bindings of a map from keys to values.  A key is
bound to the value of its first binding in the list. -/
structure StateBag where
  data : List (String × Value)

/-- The method `Get`: the value bound to the key, `nil` when there is none. -/
def StateBag.Get (state : StateBag) (k : String) : Option Value :=
  state.data.lookup k

/-- The method `Put`: bind the key to the value.  The new binding goes first, so
it hides an older binding of the key. -/
def StateBag.Put (state : StateBag) (k : String) (v : Value) : StateBag :=
  ⟨(k, v) :: state.data⟩

/-- The struct `packerbuilderdata.GeneratedData`, which holds a state bag. -/
structure GeneratedData where
  State : StateBag

/-- The type `multistep.StepAction`. -/
inductive StepAction where
  | ActionContinue
  | ActionHalt
  deriving DecidableEq, Repr

/-- The struct `StepCloneVM` (lines 77-82).  `Config` and `Location` are
pointers in the source and are taken to be non-nil, as the builder sets them. -/
structure StepCloneVM where
  Config : CloneConfig
  Location : LocationConfig
  Force : Bool
  GeneratedData : Option GeneratedData

/-! ## Library functions the step calls -/

/-- The function `unicode.ToLower` on one rune.  Up to `unicode.MaxASCII` it adds
`'a' - 'A'` to the letters `'A'` to `'Z'` and leaves every other rune alone;
beyond, it looks the rune up in the Unicode case table, the parameter
`caseTable`. -/
def unicode.ToLower (caseTable : Char → Char) (r : Char) : Char :=
  if r.toNat ≤ 0x7F then
    if 'A'.toNat ≤ r.toNat ∧ r.toNat ≤ 'Z'.toNat then
      Char.ofNat (r.toNat + ('a'.toNat - 'A'.toNat))
    else r
  else caseTable r

/-- The function `strings.ToLower`: every rune of the string mapped to lower
case.  (Its fast path for ASCII strings computes the same string.)  A `String`
is a sequence of Unicode scalar values, so Go strings that are not valid UTF-8
are not covered. -/
def strings.ToLower (caseTable : Char → Char) (s : String) : String :=
  String.mk (s.data.map (unicode.ToLower caseTable))

/-! ## The validator -/

/-- The method `CloneConfig.Prepare` (lines 58-75).  The validator of the storage
sub-configuration, `common.StorageConfig.Prepare`, lives outside this file and
is the parameter `storagePrepare`. -/
def CloneConfig.Prepare (storagePrepare : Clone.StorageConfig → List GoError)
    (c : CloneConfig) : List GoError :=
  let errs : List GoError := []
  let errs := errs ++ storagePrepare c.StorageConfig
  let errs :=
    if c.Template == "" then
      errs ++ [fmt.Errorf "'template' is required" []]
    else errs
  let errs :=
    if c.LinkedClone == true && c.DiskSize != 0 then
      errs ++ [fmt.Errorf "'linked_clone' and 'disk_size' cannot be used together" []]
    else errs
  let errs :=
    if c.MacAddress != "" && c.Network == "" then
      errs ++ [fmt.Errorf "'network' is required when 'mac_address' is specified" []]
    else errs
  errs

/-! ## The step -/

/-- What the step does to the outside, in the order it does it: a call of a
driver method, a message to the user interface, a write to the state bag. -/
inductive Event where
  | PreCleanVM (ui : Ui) (vmPath : String) (force : Bool)
      (cluster host resourcePool : String)
  | Say (ui : Ui) (message : String)
  | FindVM (name : String)
  | Clone (template : VirtualMachine) (ctx : Context) (config : DriverCloneConfig)
  | Put (key : String) (value : Value)

/-- What a run of the step leaves behind: the action returned, the state bag,
the events in order, and the step as the run leaves it (its receiver is a
pointer). -/
structure RunResult where
  action : StepAction
  state : StateBag
  trace : List Event
  self : StepCloneVM

/-- The loop of lines 102-110: starting from the nil slice, one `driver.Disk` is
appended per storage entry, in the order of the entries. -/
def StepCloneVM.disks (s : StepCloneVM) : List Disk :=
  s.Config.StorageConfig.Storage.foldl
    (fun disks disk => disks ++ [{
      DiskSize := disk.DiskSize
      DiskEagerlyScrub := disk.DiskEagerlyScrub
      DiskThinProvisioned := disk.DiskThinProvisioned
      ControllerIndex := disk.DiskControllerIndex }])
    []

/-- The clone request built at lines 112-129, the argument of the driver's
clone call. -/
def StepCloneVM.cloneConfig (caseTable : Char → Char) (s : StepCloneVM) :
    DriverCloneConfig :=
  { Name := s.Location.VMName
    Folder := s.Location.Folder
    Cluster := s.Location.Cluster
    Host := s.Location.Host
    ResourcePool := s.Location.ResourcePool
    Datastore := s.Location.Datastore
    LinkedClone := s.Config.LinkedClone
    Network := s.Config.Network
    MacAddress := strings.ToLower caseTable s.Config.MacAddress
    Annotation := s.Config.Notes
    VAppProperties := s.Config.VAppConfig.Properties
    PrimaryDiskSize := s.Config.DiskSize
    StorageConfig :=
      { DiskControllerType := s.Config.StorageConfig.DiskControllerType
        Storage := s.disks } }

/-- A slice whose backing array a callee shares, after the callee wrote `written`
over its leading elements: the length stays, and position `i` holds
`written[i]` where there is one. -/
def overwriteElems : List String → List String → List String
  | [], _ => []
  | x :: xs, [] => x :: xs
  | _ :: xs, y :: ys => y :: overwriteElems xs ys

/-- The step after the clone call of line 112.  The request holds the very map
`Config.VAppConfig.Properties` (line 123) and a slice on the backing array of
`Config.StorageConfig.DiskControllerType` (line 126), so what the call wrote to
them shows in the configuration.  Every other field of the request is a copy
or a fresh value, and nothing else of the step is handed to the driver. -/
def StepCloneVM.afterClone (s : StepCloneVM) (writes : List (String × String) × List String) :
    StepCloneVM :=
  { s with
    Config :=
      { s.Config with
        VAppConfig := { Properties := writes.1 }
        StorageConfig :=
          { s.Config.StorageConfig with
            DiskControllerType :=
              overwriteElems s.Config.StorageConfig.DiskControllerType writes.2 } } }

/-- The method `StepCloneVM.Run` (lines 84-142).  `path.Join` is the parameter
`pathJoin` and the Unicode case table the parameter `caseTable`.  The result
is `none` when the run panics: at the type assertions of lines 85 and 86 when
the state bag holds no user interface under "ui" or no driver under "driver",
and at line 112 when `FindVM` returned neither a virtual machine nor an
error.  The method assigns to no field of its receiver; the one way the
receiver changes is through the map and the slice it shares with the request
of the clone call. -/
def StepCloneVM.Run (pathJoin : String → String → String) (caseTable : Char → Char)
    (s : StepCloneVM) (ctx : Context) (state : StateBag) : Option RunResult :=
  match state.Get "ui" with
  | some (.ui ui) =>
    match state.Get "driver" with
    | some (.driver d) =>
      let vmPath := pathJoin s.Location.Folder s.Location.VMName
      let trace : List Event :=
        [.PreCleanVM ui vmPath s.Force s.Location.Cluster s.Location.Host
          s.Location.ResourcePool]
      match d.PreCleanVM ui vmPath s.Force s.Location.Cluster s.Location.Host
          s.Location.ResourcePool with
      | some err =>
        some ⟨.ActionHalt, state.Put "error" (.error err),
          trace ++ [.Put "error" (.error err)], s⟩
      | none =>
        let trace := trace ++ [.Say ui "Cloning VM...", .FindVM s.Config.Template]
        match d.FindVM s.Config.Template with
        | (_, some err) =>
          let wrapped := fmt.Errorf "Error finding vm to clone: %s" [err.Error]
          some ⟨.ActionHalt, state.Put "error" (.error wrapped),
            trace ++ [.Put "error" (.error wrapped)], s⟩
        | (none, none) => none
        | (some template, none) =>
          let config := s.cloneConfig caseTable
          let trace := trace ++ [.Clone template ctx config]
          let self := s.afterClone (template.CloneWrites ctx config)
          match template.Clone ctx config with
          | (_, some err) =>
            some ⟨.ActionHalt, state.Put "error" (.error err),
              trace ++ [.Put "error" (.error err)], self⟩
          | (none, none) => some ⟨.ActionHalt, state, trace, self⟩
          | (some vm, none) =>
            if s.Config.Destroy then
              some ⟨.ActionContinue,
                (state.Put "destroy_vm" (.bool s.Config.Destroy)).Put "vm" (.vm vm),
                trace ++ [.Put "destroy_vm" (.bool s.Config.Destroy), .Put "vm" (.vm vm)],
                self⟩
            else
              some ⟨.ActionContinue, state.Put "vm" (.vm vm),
                trace ++ [.Put "vm" (.vm vm)], self⟩
    | _ => none
  | _ => none

/-- The three driver methods the step calls. -/
inductive DriverCall where
  | PreCleanVM
  | FindVM
  | Clone
  deriving DecidableEq, Repr

/-- The driver method an event is a call of, if it is one. -/
def Event.driverCall : Event → Option DriverCall
  | .PreCleanVM _ _ _ _ _ _ => some .PreCleanVM
  | .FindVM _ => some .FindVM
  | .Clone _ _ _ => some .Clone
  | .Say _ _ => none
  | .Put _ _ => none

/-- The driver calls of a trace, in order. -/
def driverCalls (trace : List Event) : List DriverCall :=
  trace.filterMap Event.driverCall

/-! ## Sample inputs -/

/-- A storage validator that accepts every storage configuration. -/
def acceptStorage : StorageConfig → List GoError := fun _ => []

/-- A storage validator that reports one violation of its own. -/
def rejectStorage : StorageConfig → List GoError :=
  fun _ => [errors.New "'disk_size' is required"]

/-- Two disks on two controllers. -/
def twoDisks : StorageConfig :=
  { DiskControllerType := ["pvscsi", "lsilogic"]
    Storage :=
      [ { DiskSize := 32768, DiskThinProvisioned := true, DiskEagerlyScrub := false,
          DiskControllerIndex := 0 },
        { DiskSize := 2048, DiskThinProvisioned := false, DiskEagerlyScrub := true,
          DiskControllerIndex := 1 } ] }

/-- A configuration that satisfies every invariant. -/
def validConfig : CloneConfig :=
  { Template := "base-vm", DiskSize := 0, LinkedClone := false, Network := "VM Network",
    MacAddress := "00:50:56:AA:BB:CC", Notes := "built by packer", Destroy := false,
    VAppConfig := { Properties := [("hostname", "clone-01")] }, StorageConfig := twoDisks }

/-- A configuration that breaks the three invariants at once: no template, a
linked clone with a disk size, a MAC address without a network. -/
def brokenConfig : CloneConfig :=
  { validConfig with Template := "", DiskSize := 4096, LinkedClone := true, Network := "" }

/-- A linked clone with a negative disk size. -/
def negativeDiskConfig : CloneConfig :=
  { validConfig with DiskSize := -1, LinkedClone := true }

/-- A linked clone without a disk size. -/
def linkedCloneConfig : CloneConfig :=
  { validConfig with LinkedClone := true }

/-- A MAC address without a network, everything else valid. -/
def macOnlyConfig : CloneConfig :=
  { validConfig with Network := "" }

/-- A network without a MAC address. -/
def networkOnlyConfig : CloneConfig :=
  { validConfig with MacAddress := "" }

/-- Neither a network nor a MAC address. -/
def noNetworkConfig : CloneConfig :=
  { validConfig with Network := "", MacAddress := "" }

/-- No template and no disk size, everything else valid. -/
def noTemplateConfig : CloneConfig :=
  { validConfig with Template := "" }

/-- No template, no disk size, and a MAC address without a network. -/
def noTemplateMacConfig : CloneConfig :=
  { validConfig with Template := "", Network := "" }

/-- The valid configuration with `Destroy` set. -/
def destroyConfig : CloneConfig :=
  { validConfig with Destroy := true }

/-- A target location. -/
def sampleLocation : LocationConfig :=
  { VMName := "clone-01", Folder := "builds", Cluster := "cluster-a", Host := "esx-1",
    ResourcePool := "pool-1", Datastore := "ds-1" }

/-- The step for a configuration, at the sample location. -/
def sampleStep (c : CloneConfig) : StepCloneVM :=
  { Config := c, Location := sampleLocation, Force := false, GeneratedData := none }

/-- A stand-in for `path.Join` on two clean, non-empty elements. -/
def slashJoin (a b : String) : String := a ++ "/" ++ b

/-- The virtual machine a clone call hands out; it cannot be cloned itself. -/
def clonedVM : VirtualMachine :=
  .mk "vm-2002" (fun _ _ => (none, some (errors.New "not a template"))) readOnly

/-- A template whose clone call succeeds. -/
def templateVM : VirtualMachine :=
  .mk "vm-1001" (fun _ _ => (some clonedVM, none)) readOnly

/-- A template whose clone call fails with the given error. -/
def brokenTemplateVM (err : GoError) : VirtualMachine :=
  .mk "vm-1001" (fun _ _ => (none, some err)) readOnly

/-- A driver whose calls all succeed. -/
def okDriver : Driver :=
  { PreCleanVM := fun _ _ _ _ _ _ => none
    FindVM := fun _ => (some templateVM, none) }

/-- A driver whose pre-clean fails with the given error. -/
def preCleanFailDriver (err : GoError) : Driver :=
  { PreCleanVM := fun _ _ _ _ _ _ => some err
    FindVM := fun _ => (some templateVM, none) }

/-- A driver whose template lookup fails with the given error. -/
def findFailDriver (err : GoError) : Driver :=
  { PreCleanVM := fun _ _ _ _ _ _ => none
    FindVM := fun _ => (none, some err) }

/-- A driver whose template's clone call fails with the given error. -/
def cloneFailDriver (err : GoError) : Driver :=
  { PreCleanVM := fun _ _ _ _ _ _ => none
    FindVM := fun _ => (some (brokenTemplateVM err), none) }

/-- The state bag at the start of the step: a user interface and a driver. -/
def sampleState (d : Driver) : StateBag :=
  ⟨[("ui", .ui ⟨1⟩), ("driver", .driver d)]⟩

/-- A template whose clone call returns neither a virtual machine nor an error. -/
def silentTemplateVM : VirtualMachine :=
  .mk "vm-1001" (fun _ _ => (none, none)) readOnly

/-- A template whose clone call returns both a virtual machine and the given
error. -/
def halfCloneTemplateVM (err : GoError) : VirtualMachine :=
  .mk "vm-1001" (fun _ _ => (some clonedVM, some err)) readOnly

/-- A driver whose template's clone call returns neither a virtual machine nor an
error. -/
def silentCloneDriver : Driver :=
  { PreCleanVM := fun _ _ _ _ _ _ => none
    FindVM := fun _ => (some silentTemplateVM, none) }

/-- A driver whose template's clone call returns both a virtual machine and the
given error. -/
def halfCloneDriver (err : GoError) : Driver :=
  { PreCleanVM := fun _ _ _ _ _ _ => none
    FindVM := fun _ => (some (halfCloneTemplateVM err), none) }

/-- A template whose clone call succeeds after writing to the map and to the
slice of its request, as by `config.VAppProperties["hostname"] = "overwritten"`
and `config.StorageConfig.DiskControllerType[0] = "nvme"`. -/
def writingTemplateVM : VirtualMachine :=
  .mk "vm-1001" (fun _ _ => (some clonedVM, none))
    (fun _ _ => ([("hostname", "overwritten")], ["nvme"]))

/-- A driver whose template's clone call writes to its request. -/
def writingDriver : Driver :=
  { PreCleanVM := fun _ _ _ _ _ _ => none
    FindVM := fun _ => (some writingTemplateVM, none) }

/-- A driver whose template lookup returns neither a virtual machine nor an
error. -/
def nilFindDriver : Driver :=
  { PreCleanVM := fun _ _ _ _ _ _ => none
    FindVM := fun _ => (none, none) }

/-- A state bag that holds, next to the user interface and the driver, a key of
an earlier step. -/
def richState (d : Driver) : StateBag :=
  ⟨[("ui", .ui ⟨1⟩), ("driver", .driver d), ("vm_name", .str "clone-01")]⟩

/-- A state bag that holds nothing. -/
def emptyState : StateBag := ⟨[]⟩

/-- An error of the driver. -/
def notFound : GoError := errors.New "vm 'base-vm' not found"

/-! ## The validator: lemmas -/

theorem Errorf_template :
    fmt.Errorf "'template' is required" [] = GoError.errorString "'template' is required" := by
  decide

theorem Errorf_linked_clone :
    fmt.Errorf "'linked_clone' and 'disk_size' cannot be used together" [] =
      GoError.errorString "'linked_clone' and 'disk_size' cannot be used together" := by
  decide

theorem Errorf_network :
    fmt.Errorf "'network' is required when 'mac_address' is specified" [] =
      GoError.errorString "'network' is required when 'mac_address' is specified" := by
  decide

/-- The sequence of appends in `CloneConfig.Prepare` as one concatenation. -/
theorem Prepare_eq_append (storagePrepare : StorageConfig → List GoError) (c : CloneConfig) :
    c.Prepare storagePrepare =
      storagePrepare c.StorageConfig
        ++ (if c.Template = "" then [GoError.errorString "'template' is required"] else [])
        ++ (if c.LinkedClone = true ∧ c.DiskSize ≠ 0 then
              [GoError.errorString "'linked_clone' and 'disk_size' cannot be used together"]
            else [])
        ++ (if c.MacAddress ≠ "" ∧ c.Network = "" then
              [GoError.errorString "'network' is required when 'mac_address' is specified"]
            else []) := by
  unfold CloneConfig.Prepare
  rw [Errorf_template, Errorf_linked_clone, Errorf_network]
  by_cases h1 : c.Template = "" <;> by_cases h2 : c.LinkedClone = true <;>
    by_cases h3 : c.DiskSize = 0 <;> by_cases h4 : c.MacAddress = "" <;>
    by_cases h5 : c.Network = "" <;> simp [h1, h2, h3, h4, h5]

/-- How often the linked-clone violation occurs in the list `Prepare` returns. -/
theorem Prepare_count_linked_clone
    (storagePrepare : StorageConfig → List GoError) (c : CloneConfig) :
    (c.Prepare storagePrepare).count
        (GoError.errorString "'linked_clone' and 'disk_size' cannot be used together") =
      (storagePrepare c.StorageConfig).count
          (GoError.errorString "'linked_clone' and 'disk_size' cannot be used together")
        + (if c.LinkedClone = true ∧ c.DiskSize ≠ 0 then 1 else 0) := by
  rw [Prepare_eq_append]
  by_cases h1 : c.Template = "" <;> by_cases h2 : c.LinkedClone = true ∧ c.DiskSize ≠ 0 <;>
    by_cases h3 : c.MacAddress ≠ "" ∧ c.Network = "" <;>
    simp [h1, h2, h3, List.count_append, List.count_cons]

/-- How often the network violation occurs in the list `Prepare` returns. -/
theorem Prepare_count_network
    (storagePrepare : StorageConfig → List GoError) (c : CloneConfig) :
    (c.Prepare storagePrepare).count
        (GoError.errorString "'network' is required when 'mac_address' is specified") =
      (storagePrepare c.StorageConfig).count
          (GoError.errorString "'network' is required when 'mac_address' is specified")
        + (if c.MacAddress ≠ "" ∧ c.Network = "" then 1 else 0) := by
  rw [Prepare_eq_append]
  by_cases h1 : c.Template = "" <;> by_cases h2 : c.LinkedClone = true ∧ c.DiskSize ≠ 0 <;>
    by_cases h3 : c.MacAddress ≠ "" ∧ c.Network = "" <;>
    simp [h1, h2, h3, List.count_append, List.count_cons]

/-! ## The validator: claims -/

/-- C1: `CloneConfig.Prepare` never short-circuits.  For every configuration and
every storage validator the list returned is the storage violations, then the
template violation exactly when `Template` is empty, then the linked-clone
violation exactly when `LinkedClone` is true and `DiskSize` is not zero, then
the network violation exactly when `MacAddress` is non-empty and `Network` is
empty; its length is the number of storage violations plus the number of
violated invariants; the three messages are pairwise distinct; and a
configuration that violates all three gets all three in one call. -/
theorem Prepare_reports_every_violation
    (storagePrepare : StorageConfig → List GoError) (c : CloneConfig) :
    c.Prepare storagePrepare =
        storagePrepare c.StorageConfig
          ++ (if c.Template = "" then [GoError.errorString "'template' is required"] else [])
          ++ (if c.LinkedClone = true ∧ c.DiskSize ≠ 0 then
                [GoError.errorString "'linked_clone' and 'disk_size' cannot be used together"]
              else [])
          ++ (if c.MacAddress ≠ "" ∧ c.Network = "" then
                [GoError.errorString "'network' is required when 'mac_address' is specified"]
              else [])
      ∧ (c.Prepare storagePrepare).length =
          (storagePrepare c.StorageConfig).length
            + (if c.Template = "" then 1 else 0)
            + (if c.LinkedClone = true ∧ c.DiskSize ≠ 0 then 1 else 0)
            + (if c.MacAddress ≠ "" ∧ c.Network = "" then 1 else 0)
      ∧ (GoError.errorString "'template' is required" ≠
            GoError.errorString "'linked_clone' and 'disk_size' cannot be used together"
          ∧ GoError.errorString "'template' is required" ≠
            GoError.errorString "'network' is required when 'mac_address' is specified"
          ∧ GoError.errorString "'linked_clone' and 'disk_size' cannot be used together" ≠
            GoError.errorString "'network' is required when 'mac_address' is specified")
      ∧ (c.Template = "" → c.LinkedClone = true → c.DiskSize ≠ 0 →
          c.MacAddress ≠ "" → c.Network = "" →
          c.Prepare storagePrepare =
            storagePrepare c.StorageConfig
              ++ [GoError.errorString "'template' is required",
                  GoError.errorString "'linked_clone' and 'disk_size' cannot be used together",
                  GoError.errorString
                    "'network' is required when 'mac_address' is specified"]) := by
  refine ⟨Prepare_eq_append storagePrepare c, ?_, ⟨by decide, by decide, by decide⟩, ?_⟩
  · rw [Prepare_eq_append]
    by_cases h1 : c.Template = "" <;> by_cases h2 : c.LinkedClone = true ∧ c.DiskSize ≠ 0 <;>
      by_cases h3 : c.MacAddress ≠ "" ∧ c.Network = "" <;> simp [h1, h2, h3]
  · intro h1 h2 h3 h4 h5
    rw [Prepare_eq_append]
    simp [h1, h2, h3, h4, h5]

/-- C1, on a configuration that breaks the three invariants under a storage
validator with a violation of its own: four violations, in the order of the
checks. -/
theorem Prepare_reports_every_violation_witness :
    brokenConfig.Prepare rejectStorage =
      rejectStorage brokenConfig.StorageConfig
        ++ [GoError.errorString "'template' is required",
            GoError.errorString "'linked_clone' and 'disk_size' cannot be used together",
            GoError.errorString "'network' is required when 'mac_address' is specified"] :=
  (Prepare_reports_every_violation rejectStorage brokenConfig).2.2.2
    (by decide) (by decide) (by decide) (by decide) (by decide)

/-- C2: for every configuration whose `Template` is empty, whatever its other
fields and whatever the storage validator returns, `Prepare` returns a list
that contains the violation "'template' is required". -/
theorem Prepare_empty_template
    (storagePrepare : StorageConfig → List GoError) (c : CloneConfig)
    (h : c.Template = "") :
    GoError.errorString "'template' is required" ∈ c.Prepare storagePrepare := by
  rw [Prepare_eq_append]
  simp [h]

/-- C2, on a configuration that also breaks the two other invariants. -/
theorem Prepare_empty_template_witness :
    GoError.errorString "'template' is required" ∈ brokenConfig.Prepare rejectStorage :=
  Prepare_empty_template rejectStorage brokenConfig (by decide)

/-- C3: for every configuration with `LinkedClone` true and `DiskSize` not zero
(negative included) `Prepare` returns a list that contains the linked-clone
violation, once more than the storage validator reported it; with
`LinkedClone` true and `DiskSize` zero, and with `LinkedClone` false, `Prepare`
adds none: the violation occurs as often as the storage validator reported
it. -/
theorem Prepare_linked_clone_disk_size
    (storagePrepare : StorageConfig → List GoError) (c : CloneConfig) :
    (c.LinkedClone = true → c.DiskSize ≠ 0 →
        GoError.errorString "'linked_clone' and 'disk_size' cannot be used together"
            ∈ c.Prepare storagePrepare
          ∧ (c.Prepare storagePrepare).count
              (GoError.errorString "'linked_clone' and 'disk_size' cannot be used together") =
            (storagePrepare c.StorageConfig).count
              (GoError.errorString "'linked_clone' and 'disk_size' cannot be used together")
              + 1)
      ∧ (c.LinkedClone = true → c.DiskSize = 0 →
          (c.Prepare storagePrepare).count
              (GoError.errorString "'linked_clone' and 'disk_size' cannot be used together") =
            (storagePrepare c.StorageConfig).count
              (GoError.errorString "'linked_clone' and 'disk_size' cannot be used together"))
      ∧ (c.LinkedClone = false →
          (c.Prepare storagePrepare).count
              (GoError.errorString "'linked_clone' and 'disk_size' cannot be used together") =
            (storagePrepare c.StorageConfig).count
              (GoError.errorString "'linked_clone' and 'disk_size' cannot be used together")) := by
  refine ⟨fun h1 h2 => ⟨?_, ?_⟩, fun h1 h2 => ?_, fun h1 => ?_⟩
  · rw [Prepare_eq_append]
    simp [h1, h2]
  · rw [Prepare_count_linked_clone]
    simp [h1, h2]
  · rw [Prepare_count_linked_clone]
    simp [h1, h2]
  · rw [Prepare_count_linked_clone]
    simp [h1]

/-- C3, on a linked clone with a negative disk size (one violation), on a linked
clone without a disk size (none) and on a full clone (none). -/
theorem Prepare_linked_clone_disk_size_witness :
    (GoError.errorString "'linked_clone' and 'disk_size' cannot be used together"
          ∈ negativeDiskConfig.Prepare acceptStorage
        ∧ (negativeDiskConfig.Prepare acceptStorage).count
            (GoError.errorString "'linked_clone' and 'disk_size' cannot be used together") =
          (acceptStorage negativeDiskConfig.StorageConfig).count
            (GoError.errorString "'linked_clone' and 'disk_size' cannot be used together") + 1)
      ∧ (linkedCloneConfig.Prepare acceptStorage).count
            (GoError.errorString "'linked_clone' and 'disk_size' cannot be used together") =
          (acceptStorage linkedCloneConfig.StorageConfig).count
            (GoError.errorString "'linked_clone' and 'disk_size' cannot be used together")
      ∧ (validConfig.Prepare acceptStorage).count
            (GoError.errorString "'linked_clone' and 'disk_size' cannot be used together") =
          (acceptStorage validConfig.StorageConfig).count
            (GoError.errorString "'linked_clone' and 'disk_size' cannot be used together") :=
  ⟨(Prepare_linked_clone_disk_size acceptStorage negativeDiskConfig).1 (by decide) (by decide),
    (Prepare_linked_clone_disk_size acceptStorage linkedCloneConfig).2.1 (by decide) (by decide),
    (Prepare_linked_clone_disk_size acceptStorage validConfig).2.2 (by decide)⟩

/-- C4: for every configuration with a non-empty `MacAddress` and an empty
`Network`, `Prepare` returns a list that contains the violation "'network' is
required when 'mac_address' is specified", once more than the storage
validator reported it; with a non-empty `Network` and an empty `MacAddress`,
with both non-empty and with both empty, `Prepare` adds none: the violation
occurs as often as the storage validator reported it. -/
theorem Prepare_mac_address_network
    (storagePrepare : StorageConfig → List GoError) (c : CloneConfig) :
    (c.MacAddress ≠ "" → c.Network = "" →
        GoError.errorString "'network' is required when 'mac_address' is specified"
            ∈ c.Prepare storagePrepare
          ∧ (c.Prepare storagePrepare).count
              (GoError.errorString "'network' is required when 'mac_address' is specified") =
            (storagePrepare c.StorageConfig).count
              (GoError.errorString "'network' is required when 'mac_address' is specified")
              + 1)
      ∧ (c.Network ≠ "" → c.MacAddress = "" →
          (c.Prepare storagePrepare).count
              (GoError.errorString "'network' is required when 'mac_address' is specified") =
            (storagePrepare c.StorageConfig).count
              (GoError.errorString "'network' is required when 'mac_address' is specified"))
      ∧ (c.Network ≠ "" → c.MacAddress ≠ "" →
          (c.Prepare storagePrepare).count
              (GoError.errorString "'network' is required when 'mac_address' is specified") =
            (storagePrepare c.StorageConfig).count
              (GoError.errorString "'network' is required when 'mac_address' is specified"))
      ∧ (c.Network = "" → c.MacAddress = "" →
          (c.Prepare storagePrepare).count
              (GoError.errorString "'network' is required when 'mac_address' is specified") =
            (storagePrepare c.StorageConfig).count
              (GoError.errorString "'network' is required when 'mac_address' is specified")) := by
  refine ⟨fun h1 h2 => ⟨?_, ?_⟩, fun h1 h2 => ?_, fun h1 h2 => ?_, fun h1 h2 => ?_⟩
  · rw [Prepare_eq_append]
    simp [h1, h2]
  · rw [Prepare_count_network]
    simp [h1, h2]
  · rw [Prepare_count_network]
    simp [h1, h2]
  · rw [Prepare_count_network]
    simp [h1, h2]
  · rw [Prepare_count_network]
    simp [h1, h2]

/-- C4, on a MAC address without a network (one violation), a network without a
MAC address, both, and neither (none). -/
theorem Prepare_mac_address_network_witness :
    (GoError.errorString "'network' is required when 'mac_address' is specified"
          ∈ macOnlyConfig.Prepare acceptStorage
        ∧ (macOnlyConfig.Prepare acceptStorage).count
            (GoError.errorString "'network' is required when 'mac_address' is specified") =
          (acceptStorage macOnlyConfig.StorageConfig).count
            (GoError.errorString "'network' is required when 'mac_address' is specified") + 1)
      ∧ (networkOnlyConfig.Prepare acceptStorage).count
            (GoError.errorString "'network' is required when 'mac_address' is specified") =
          (acceptStorage networkOnlyConfig.StorageConfig).count
            (GoError.errorString "'network' is required when 'mac_address' is specified")
      ∧ (validConfig.Prepare acceptStorage).count
            (GoError.errorString "'network' is required when 'mac_address' is specified") =
          (acceptStorage validConfig.StorageConfig).count
            (GoError.errorString "'network' is required when 'mac_address' is specified")
      ∧ (noNetworkConfig.Prepare acceptStorage).count
            (GoError.errorString "'network' is required when 'mac_address' is specified") =
          (acceptStorage noNetworkConfig.StorageConfig).count
            (GoError.errorString "'network' is required when 'mac_address' is specified") :=
  ⟨(Prepare_mac_address_network acceptStorage macOnlyConfig).1 (by decide) (by decide),
    (Prepare_mac_address_network acceptStorage networkOnlyConfig).2.1 (by decide) (by decide),
    (Prepare_mac_address_network acceptStorage validConfig).2.2.1 (by decide) (by decide),
    (Prepare_mac_address_network acceptStorage noNetworkConfig).2.2.2 (by decide) (by decide)⟩

/-- C5, as stated, fails: a configuration with an empty `Template`, a zero
`DiskSize` and no storage violation, but with a MAC address and no network,
gets two violations, not one. -/
theorem Prepare_no_template_two_violations :
    noTemplateMacConfig.Template = "" ∧ noTemplateMacConfig.DiskSize = 0
      ∧ acceptStorage noTemplateMacConfig.StorageConfig = []
      ∧ noTemplateMacConfig.Prepare acceptStorage =
          [GoError.errorString "'template' is required",
           GoError.errorString "'network' is required when 'mac_address' is specified"]
      ∧ (noTemplateMacConfig.Prepare acceptStorage).length ≠ 1 := by
  decide

/-- C5 (amended): for every configuration with an empty `Template` and a zero
`DiskSize` whose storage sub-configuration reports no violation and which
does not have a MAC address without a network, `Prepare` returns exactly one
violation, the template one. -/
theorem Prepare_only_template
    (storagePrepare : StorageConfig → List GoError) (c : CloneConfig)
    (hTemplate : c.Template = "") (hDisk : c.DiskSize = 0)
    (hStorage : storagePrepare c.StorageConfig = [])
    (hMac : ¬ (c.MacAddress ≠ "" ∧ c.Network = "")) :
    c.Prepare storagePrepare = [GoError.errorString "'template' is required"] := by
  rw [Prepare_eq_append, hStorage]
  simp only [ne_eq] at hMac
  simp [hTemplate, hDisk, hMac]

/-- C5 (amended), on a configuration with neither template nor disk size, with a
network for its MAC address. -/
theorem Prepare_only_template_witness :
    noTemplateConfig.Prepare acceptStorage = [GoError.errorString "'template' is required"] :=
  Prepare_only_template acceptStorage noTemplateConfig (by decide) (by decide) (by decide)
    (by decide)

/-! ## The step: lemmas -/

/-- Appending one image per element, from the left, is mapping. -/
theorem foldl_append_singleton {α β : Type} (f : α → β) (l : List α) (init : List β) :
    l.foldl (fun acc x => acc ++ [f x]) init = init ++ l.map f := by
  induction l generalizing init with
  | nil => simp
  | cons x xs ih => simp [ih]

/-- The loop of lines 102-110 maps the storage entries to disks. -/
theorem disks_eq_map (s : StepCloneVM) :
    s.disks = s.Config.StorageConfig.Storage.map (fun disk =>
      ({ DiskSize := disk.DiskSize
         DiskEagerlyScrub := disk.DiskEagerlyScrub
         DiskThinProvisioned := disk.DiskThinProvisioned
         ControllerIndex := disk.DiskControllerIndex } : Disk)) := by
  unfold StepCloneVM.disks
  rw [foldl_append_singleton]
  simp

/-- Reading a key after a write: the value written under that key, the old value
under any other. -/
theorem Get_Put (state : StateBag) (k k' : String) (v : Value) :
    (state.Put k v).Get k' = if k' = k then some v else state.Get k' := by
  unfold StateBag.Get StateBag.Put
  by_cases h : k' = k
  · simp [List.lookup, h]
  · have hb : (k' == k) = false := by simpa using h
    simp [List.lookup, hb, h]

/-- The run when pre-clean fails. -/
theorem Run_preclean_error (pathJoin : String → String → String) (caseTable : Char → Char)
    (s : StepCloneVM) (ctx : Context) (state : StateBag) (ui : Ui) (d : Driver)
    (err : GoError)
    (hui : state.Get "ui" = some (.ui ui)) (hd : state.Get "driver" = some (.driver d))
    (hpre : d.PreCleanVM ui (pathJoin s.Location.Folder s.Location.VMName) s.Force
      s.Location.Cluster s.Location.Host s.Location.ResourcePool = some err) :
    s.Run pathJoin caseTable ctx state =
      some ⟨.ActionHalt, state.Put "error" (.error err),
        [.PreCleanVM ui (pathJoin s.Location.Folder s.Location.VMName) s.Force
            s.Location.Cluster s.Location.Host s.Location.ResourcePool,
          .Put "error" (.error err)], s⟩ := by
  unfold StepCloneVM.Run
  simp [hui, hd, hpre]

/-- The run when pre-clean succeeds and the template lookup fails. -/
theorem Run_find_error (pathJoin : String → String → String) (caseTable : Char → Char)
    (s : StepCloneVM) (ctx : Context) (state : StateBag) (ui : Ui) (d : Driver)
    (t : Option VirtualMachine) (err : GoError)
    (hui : state.Get "ui" = some (.ui ui)) (hd : state.Get "driver" = some (.driver d))
    (hpre : d.PreCleanVM ui (pathJoin s.Location.Folder s.Location.VMName) s.Force
      s.Location.Cluster s.Location.Host s.Location.ResourcePool = none)
    (hfind : d.FindVM s.Config.Template = (t, some err)) :
    s.Run pathJoin caseTable ctx state =
      some ⟨.ActionHalt,
        state.Put "error" (.error (.errorString ("Error finding vm to clone: " ++ err.Error))),
        [.PreCleanVM ui (pathJoin s.Location.Folder s.Location.VMName) s.Force
            s.Location.Cluster s.Location.Host s.Location.ResourcePool,
          .Say ui "Cloning VM...", .FindVM s.Config.Template,
          .Put "error" (.error (.errorString ("Error finding vm to clone: " ++ err.Error)))],
        s⟩ := by
  have hfmt : fmt.Errorf "Error finding vm to clone: %s" [err.Error] =
      .errorString ("Error finding vm to clone: " ++ err.Error) := by
    simp [fmt.Errorf, errors.New, fmt.sprintfChars, String.ext_iff]
  unfold StepCloneVM.Run
  simp [hui, hd, hpre, hfind, hfmt]

/-- The run panics when the template lookup returns neither a virtual machine
nor an error. -/
theorem Run_find_nil (pathJoin : String → String → String) (caseTable : Char → Char)
    (s : StepCloneVM) (ctx : Context) (state : StateBag) (ui : Ui) (d : Driver)
    (hui : state.Get "ui" = some (.ui ui)) (hd : state.Get "driver" = some (.driver d))
    (hpre : d.PreCleanVM ui (pathJoin s.Location.Folder s.Location.VMName) s.Force
      s.Location.Cluster s.Location.Host s.Location.ResourcePool = none)
    (hfind : d.FindVM s.Config.Template = (none, none)) :
    s.Run pathJoin caseTable ctx state = none := by
  unfold StepCloneVM.Run
  simp [hui, hd, hpre, hfind]

/-- The run when the clone call fails. -/
theorem Run_clone_error (pathJoin : String → String → String) (caseTable : Char → Char)
    (s : StepCloneVM) (ctx : Context) (state : StateBag) (ui : Ui) (d : Driver)
    (template : VirtualMachine) (v : Option VirtualMachine) (err : GoError)
    (hui : state.Get "ui" = some (.ui ui)) (hd : state.Get "driver" = some (.driver d))
    (hpre : d.PreCleanVM ui (pathJoin s.Location.Folder s.Location.VMName) s.Force
      s.Location.Cluster s.Location.Host s.Location.ResourcePool = none)
    (hfind : d.FindVM s.Config.Template = (some template, none))
    (hclone : template.Clone ctx (s.cloneConfig caseTable) = (v, some err)) :
    s.Run pathJoin caseTable ctx state =
      some ⟨.ActionHalt, state.Put "error" (.error err),
        [.PreCleanVM ui (pathJoin s.Location.Folder s.Location.VMName) s.Force
            s.Location.Cluster s.Location.Host s.Location.ResourcePool,
          .Say ui "Cloning VM...", .FindVM s.Config.Template,
          .Clone template ctx (s.cloneConfig caseTable),
          .Put "error" (.error err)],
        s.afterClone (template.CloneWrites ctx (s.cloneConfig caseTable))⟩ := by
  unfold StepCloneVM.Run
  simp [hui, hd, hpre, hfind, hclone]

/-- The run when the clone call returns neither a virtual machine nor an error. -/
theorem Run_clone_nil (pathJoin : String → String → String) (caseTable : Char → Char)
    (s : StepCloneVM) (ctx : Context) (state : StateBag) (ui : Ui) (d : Driver)
    (template : VirtualMachine)
    (hui : state.Get "ui" = some (.ui ui)) (hd : state.Get "driver" = some (.driver d))
    (hpre : d.PreCleanVM ui (pathJoin s.Location.Folder s.Location.VMName) s.Force
      s.Location.Cluster s.Location.Host s.Location.ResourcePool = none)
    (hfind : d.FindVM s.Config.Template = (some template, none))
    (hclone : template.Clone ctx (s.cloneConfig caseTable) = (none, none)) :
    s.Run pathJoin caseTable ctx state =
      some ⟨.ActionHalt, state,
        [.PreCleanVM ui (pathJoin s.Location.Folder s.Location.VMName) s.Force
            s.Location.Cluster s.Location.Host s.Location.ResourcePool,
          .Say ui "Cloning VM...", .FindVM s.Config.Template,
          .Clone template ctx (s.cloneConfig caseTable)],
        s.afterClone (template.CloneWrites ctx (s.cloneConfig caseTable))⟩ := by
  unfold StepCloneVM.Run
  simp [hui, hd, hpre, hfind, hclone]

/-- The run when the clone call returns a virtual machine and `Destroy` is set. -/
theorem Run_clone_ok_destroy (pathJoin : String → String → String) (caseTable : Char → Char)
    (s : StepCloneVM) (ctx : Context) (state : StateBag) (ui : Ui) (d : Driver)
    (template vm : VirtualMachine)
    (hui : state.Get "ui" = some (.ui ui)) (hd : state.Get "driver" = some (.driver d))
    (hpre : d.PreCleanVM ui (pathJoin s.Location.Folder s.Location.VMName) s.Force
      s.Location.Cluster s.Location.Host s.Location.ResourcePool = none)
    (hfind : d.FindVM s.Config.Template = (some template, none))
    (hclone : template.Clone ctx (s.cloneConfig caseTable) = (some vm, none))
    (hdestroy : s.Config.Destroy = true) :
    s.Run pathJoin caseTable ctx state =
      some ⟨.ActionContinue, (state.Put "destroy_vm" (.bool true)).Put "vm" (.vm vm),
        [.PreCleanVM ui (pathJoin s.Location.Folder s.Location.VMName) s.Force
            s.Location.Cluster s.Location.Host s.Location.ResourcePool,
          .Say ui "Cloning VM...", .FindVM s.Config.Template,
          .Clone template ctx (s.cloneConfig caseTable),
          .Put "destroy_vm" (.bool true), .Put "vm" (.vm vm)],
        s.afterClone (template.CloneWrites ctx (s.cloneConfig caseTable))⟩ := by
  unfold StepCloneVM.Run
  simp [hui, hd, hpre, hfind, hclone, hdestroy]

/-- The run when the clone call returns a virtual machine and `Destroy` is not
set. -/
theorem Run_clone_ok_keep (pathJoin : String → String → String) (caseTable : Char → Char)
    (s : StepCloneVM) (ctx : Context) (state : StateBag) (ui : Ui) (d : Driver)
    (template vm : VirtualMachine)
    (hui : state.Get "ui" = some (.ui ui)) (hd : state.Get "driver" = some (.driver d))
    (hpre : d.PreCleanVM ui (pathJoin s.Location.Folder s.Location.VMName) s.Force
      s.Location.Cluster s.Location.Host s.Location.ResourcePool = none)
    (hfind : d.FindVM s.Config.Template = (some template, none))
    (hclone : template.Clone ctx (s.cloneConfig caseTable) = (some vm, none))
    (hdestroy : s.Config.Destroy = false) :
    s.Run pathJoin caseTable ctx state =
      some ⟨.ActionContinue, state.Put "vm" (.vm vm),
        [.PreCleanVM ui (pathJoin s.Location.Folder s.Location.VMName) s.Force
            s.Location.Cluster s.Location.Host s.Location.ResourcePool,
          .Say ui "Cloning VM...", .FindVM s.Config.Template,
          .Clone template ctx (s.cloneConfig caseTable),
          .Put "vm" (.vm vm)],
        s.afterClone (template.CloneWrites ctx (s.cloneConfig caseTable))⟩ := by
  unfold StepCloneVM.Run
  simp [hui, hd, hpre, hfind, hclone, hdestroy]

/-- A run that returns found a user interface and a driver in the state bag. -/
theorem Run_some_reads (pathJoin : String → String → String) (caseTable : Char → Char)
    (s : StepCloneVM) (ctx : Context) (state : StateBag) (res : RunResult)
    (h : s.Run pathJoin caseTable ctx state = some res) :
    ∃ ui d, state.Get "ui" = some (.ui ui) ∧ state.Get "driver" = some (.driver d) := by
  unfold StepCloneVM.Run at h
  split at h
  · rename_i ui hui
    split at h
    · rename_i d hd
      exact ⟨ui, d, hui, hd⟩
    · simp at h
  · simp at h

/-- Every run that returns is one of six: pre-clean failed; the template lookup
failed; the clone call failed; the clone call returned nothing; the clone call
returned a virtual machine, with `Destroy` set or not. -/
theorem Run_cases (pathJoin : String → String → String) (caseTable : Char → Char)
    (s : StepCloneVM) (ctx : Context) (state : StateBag) (res : RunResult)
    (h : s.Run pathJoin caseTable ctx state = some res) :
    ∃ ui d, state.Get "ui" = some (.ui ui) ∧ state.Get "driver" = some (.driver d) ∧
      ((∃ err,
          d.PreCleanVM ui (pathJoin s.Location.Folder s.Location.VMName) s.Force
            s.Location.Cluster s.Location.Host s.Location.ResourcePool = some err ∧
          res = ⟨.ActionHalt, state.Put "error" (.error err),
            [.PreCleanVM ui (pathJoin s.Location.Folder s.Location.VMName) s.Force
                s.Location.Cluster s.Location.Host s.Location.ResourcePool,
              .Put "error" (.error err)], s⟩)
        ∨ (d.PreCleanVM ui (pathJoin s.Location.Folder s.Location.VMName) s.Force
              s.Location.Cluster s.Location.Host s.Location.ResourcePool = none ∧
            ∃ t err, d.FindVM s.Config.Template = (t, some err) ∧
              res = ⟨.ActionHalt,
                state.Put "error"
                  (.error (.errorString ("Error finding vm to clone: " ++ err.Error))),
                [.PreCleanVM ui (pathJoin s.Location.Folder s.Location.VMName) s.Force
                    s.Location.Cluster s.Location.Host s.Location.ResourcePool,
                  .Say ui "Cloning VM...", .FindVM s.Config.Template,
                  .Put "error"
                    (.error (.errorString ("Error finding vm to clone: " ++ err.Error)))],
                s⟩)
        ∨ (d.PreCleanVM ui (pathJoin s.Location.Folder s.Location.VMName) s.Force
              s.Location.Cluster s.Location.Host s.Location.ResourcePool = none ∧
            ∃ template, d.FindVM s.Config.Template = (some template, none) ∧
              ((∃ v err, template.Clone ctx (s.cloneConfig caseTable) = (v, some err) ∧
                  res = ⟨.ActionHalt, state.Put "error" (.error err),
                    [.PreCleanVM ui (pathJoin s.Location.Folder s.Location.VMName) s.Force
                        s.Location.Cluster s.Location.Host s.Location.ResourcePool,
                      .Say ui "Cloning VM...", .FindVM s.Config.Template,
                      .Clone template ctx (s.cloneConfig caseTable),
                      .Put "error" (.error err)],
                    s.afterClone (template.CloneWrites ctx (s.cloneConfig caseTable))⟩)
                ∨ (template.Clone ctx (s.cloneConfig caseTable) = (none, none) ∧
                    res = ⟨.ActionHalt, state,
                      [.PreCleanVM ui (pathJoin s.Location.Folder s.Location.VMName) s.Force
                          s.Location.Cluster s.Location.Host s.Location.ResourcePool,
                        .Say ui "Cloning VM...", .FindVM s.Config.Template,
                        .Clone template ctx (s.cloneConfig caseTable)],
                      s.afterClone (template.CloneWrites ctx (s.cloneConfig caseTable))⟩)
                ∨ (∃ vm, template.Clone ctx (s.cloneConfig caseTable) = (some vm, none) ∧
                    s.Config.Destroy = true ∧
                    res = ⟨.ActionContinue,
                      (state.Put "destroy_vm" (.bool true)).Put "vm" (.vm vm),
                      [.PreCleanVM ui (pathJoin s.Location.Folder s.Location.VMName) s.Force
                          s.Location.Cluster s.Location.Host s.Location.ResourcePool,
                        .Say ui "Cloning VM...", .FindVM s.Config.Template,
                        .Clone template ctx (s.cloneConfig caseTable),
                        .Put "destroy_vm" (.bool true), .Put "vm" (.vm vm)],
                      s.afterClone (template.CloneWrites ctx (s.cloneConfig caseTable))⟩)
                ∨ (∃ vm, template.Clone ctx (s.cloneConfig caseTable) = (some vm, none) ∧
                    s.Config.Destroy = false ∧
                    res = ⟨.ActionContinue, state.Put "vm" (.vm vm),
                      [.PreCleanVM ui (pathJoin s.Location.Folder s.Location.VMName) s.Force
                          s.Location.Cluster s.Location.Host s.Location.ResourcePool,
                        .Say ui "Cloning VM...", .FindVM s.Config.Template,
                        .Clone template ctx (s.cloneConfig caseTable),
                        .Put "vm" (.vm vm)],
                      s.afterClone (template.CloneWrites ctx (s.cloneConfig caseTable))⟩)))) := by
  obtain ⟨ui, d, hui, hd⟩ := Run_some_reads pathJoin caseTable s ctx state res h
  refine ⟨ui, d, hui, hd, ?_⟩
  cases hpre : d.PreCleanVM ui (pathJoin s.Location.Folder s.Location.VMName) s.Force
      s.Location.Cluster s.Location.Host s.Location.ResourcePool with
  | some err =>
    rw [Run_preclean_error pathJoin caseTable s ctx state ui d err hui hd hpre] at h
    exact Or.inl ⟨err, rfl, (Option.some.inj h).symm⟩
  | none =>
    rcases hfind : d.FindVM s.Config.Template with ⟨t, e⟩
    cases e with
    | some err =>
      rw [Run_find_error pathJoin caseTable s ctx state ui d t err hui hd hpre hfind] at h
      exact Or.inr (Or.inl ⟨rfl, t, err, rfl, (Option.some.inj h).symm⟩)
    | none =>
      cases t with
      | none =>
        rw [Run_find_nil pathJoin caseTable s ctx state ui d hui hd hpre hfind] at h
        exact absurd h (by simp)
      | some template =>
        refine Or.inr (Or.inr ⟨rfl, template, rfl, ?_⟩)
        rcases hclone : template.Clone ctx (s.cloneConfig caseTable) with ⟨v, e⟩
        cases e with
        | some err =>
          rw [Run_clone_error pathJoin caseTable s ctx state ui d template v err hui hd hpre
            hfind hclone] at h
          exact Or.inl ⟨v, err, rfl, (Option.some.inj h).symm⟩
        | none =>
          cases v with
          | none =>
            rw [Run_clone_nil pathJoin caseTable s ctx state ui d template hui hd hpre
              hfind hclone] at h
            exact Or.inr (Or.inl ⟨rfl, (Option.some.inj h).symm⟩)
          | some vm =>
            cases hdestroy : s.Config.Destroy with
            | true =>
              rw [Run_clone_ok_destroy pathJoin caseTable s ctx state ui d template vm hui hd
                hpre hfind hclone hdestroy] at h
              exact Or.inr (Or.inr (Or.inl ⟨vm, rfl, rfl, (Option.some.inj h).symm⟩))
            | false =>
              rw [Run_clone_ok_keep pathJoin caseTable s ctx state ui d template vm hui hd
                hpre hfind hclone hdestroy] at h
              exact Or.inr (Or.inr (Or.inr ⟨vm, rfl, rfl, (Option.some.inj h).symm⟩))

/-- The text recorded for a failed template lookup is never the text of the
underlying error. -/
theorem finding_message_ne (m : String) : "Error finding vm to clone: " ++ m ≠ m := by
  intro h
  have hlen := congrArg String.length h
  simp [String.length_append] at hlen
  revert hlen
  decide

/-! ## The step: claims -/

/-- C6: the disk mapping of `StepCloneVM.Run` is order-preserving and 1:1.  In
every run, the clone request handed to the driver has as many disks as there
are storage entries in the configuration (none included), and for every index
below that number the disk at the index has the `DiskSize`,
`DiskEagerlyScrub`, `DiskThinProvisioned` and `ControllerIndex` of the entry at
the index (its `DiskSize`, `DiskEagerlyScrub`, `DiskThinProvisioned` and
`DiskControllerIndex`). -/
theorem Run_disk_mapping (pathJoin : String → String → String) (caseTable : Char → Char)
    (s : StepCloneVM) (ctx : Context) (state : StateBag) (res : RunResult)
    (template : VirtualMachine) (c : Context) (config : DriverCloneConfig)
    (h : s.Run pathJoin caseTable ctx state = some res)
    (hcall : Event.Clone template c config ∈ res.trace) :
    config.StorageConfig.Storage.length = s.Config.StorageConfig.Storage.length
      ∧ ∀ i, i < s.Config.StorageConfig.Storage.length →
          ∃ disk entry,
            config.StorageConfig.Storage[i]? = some disk
              ∧ s.Config.StorageConfig.Storage[i]? = some entry
              ∧ disk.DiskSize = entry.DiskSize
              ∧ disk.DiskEagerlyScrub = entry.DiskEagerlyScrub
              ∧ disk.DiskThinProvisioned = entry.DiskThinProvisioned
              ∧ disk.ControllerIndex = entry.DiskControllerIndex := by
  have hconfig : config = s.cloneConfig caseTable := by
    obtain ⟨ui, d, -, -, hc⟩ := Run_cases pathJoin caseTable s ctx state res h
    rcases hc with ⟨err, -, rfl⟩ | ⟨-, t, err, -, rfl⟩ | ⟨-, tm, -, hc⟩
    · simp at hcall
    · simp at hcall
    · rcases hc with ⟨v, err, -, rfl⟩ | ⟨-, rfl⟩ | ⟨vm, -, -, rfl⟩ | ⟨vm, -, -, rfl⟩ <;>
        simp at hcall <;> exact hcall.2.2
  subst hconfig
  have hdisks : (s.cloneConfig caseTable).StorageConfig.Storage = s.disks := rfl
  rw [hdisks, disks_eq_map]
  refine ⟨by simp, fun i hi => ?_⟩
  refine ⟨{ DiskSize := s.Config.StorageConfig.Storage[i].DiskSize
            DiskEagerlyScrub := s.Config.StorageConfig.Storage[i].DiskEagerlyScrub
            DiskThinProvisioned := s.Config.StorageConfig.Storage[i].DiskThinProvisioned
            ControllerIndex := s.Config.StorageConfig.Storage[i].DiskControllerIndex },
    s.Config.StorageConfig.Storage[i], ?_, List.getElem?_eq_getElem hi, rfl, rfl, rfl, rfl⟩
  simp [List.getElem?_eq_getElem hi]

/-- C6, on a run with two storage entries: the driver's clone call is made, and
its request carries the two disks in the order of the entries. -/
theorem Run_disk_mapping_witness :
    ∃ res config,
      (sampleStep validConfig).Run slashJoin id ⟨7⟩ (sampleState okDriver) = some res
        ∧ Event.Clone templateVM ⟨7⟩ config ∈ res.trace
        ∧ config.StorageConfig.Storage =
            [ { DiskSize := 32768, DiskEagerlyScrub := false, DiskThinProvisioned := true,
                ControllerIndex := 0 },
              { DiskSize := 2048, DiskEagerlyScrub := true, DiskThinProvisioned := false,
                ControllerIndex := 1 } ]
        ∧ config.StorageConfig.Storage.length =
            (sampleStep validConfig).Config.StorageConfig.Storage.length
        ∧ ∀ i, i < (sampleStep validConfig).Config.StorageConfig.Storage.length →
            ∃ disk entry,
              config.StorageConfig.Storage[i]? = some disk
                ∧ (sampleStep validConfig).Config.StorageConfig.Storage[i]? = some entry
                ∧ disk.DiskSize = entry.DiskSize
                ∧ disk.DiskEagerlyScrub = entry.DiskEagerlyScrub
                ∧ disk.DiskThinProvisioned = entry.DiskThinProvisioned
                ∧ disk.ControllerIndex = entry.DiskControllerIndex :=
  ⟨_, (sampleStep validConfig).cloneConfig id, rfl, by simp, by decide,
    Run_disk_mapping slashJoin id (sampleStep validConfig) ⟨7⟩ (sampleState okDriver) _
      templateVM ⟨7⟩ ((sampleStep validConfig).cloneConfig id) rfl (by simp)⟩

/-- C7: on a state bag with no "error" and no "destroy_vm" key, when pre-clean
returns no error, `FindVM` returns a template without error and the template's
`Clone` returns a virtual machine `vm` without error, `Run` returns Continue
and the final state has "vm" set to exactly `vm`, has no "error" key, and, when
`Config.Destroy` is false, has no "destroy_vm" key. -/
theorem Run_success (pathJoin : String → String → String) (caseTable : Char → Char)
    (s : StepCloneVM) (ctx : Context) (state : StateBag) (ui : Ui) (d : Driver)
    (template vm : VirtualMachine)
    (hui : state.Get "ui" = some (.ui ui)) (hd : state.Get "driver" = some (.driver d))
    (herror : state.Get "error" = none) (hdestroy : state.Get "destroy_vm" = none)
    (hpre : d.PreCleanVM ui (pathJoin s.Location.Folder s.Location.VMName) s.Force
      s.Location.Cluster s.Location.Host s.Location.ResourcePool = none)
    (hfind : d.FindVM s.Config.Template = (some template, none))
    (hclone : template.Clone ctx (s.cloneConfig caseTable) = (some vm, none)) :
    ∃ res, s.Run pathJoin caseTable ctx state = some res
      ∧ res.action = .ActionContinue
      ∧ res.state.Get "vm" = some (.vm vm)
      ∧ res.state.Get "error" = none
      ∧ (s.Config.Destroy = false → res.state.Get "destroy_vm" = none) := by
  cases hflag : s.Config.Destroy with
  | true =>
    refine ⟨_, Run_clone_ok_destroy pathJoin caseTable s ctx state ui d template vm hui hd
      hpre hfind hclone hflag, rfl, ?_, ?_, ?_⟩
    · simp [Get_Put]
    · simp [Get_Put, herror]
    · intro hfalse
      cases hfalse
  | false =>
    refine ⟨_, Run_clone_ok_keep pathJoin caseTable s ctx state ui d template vm hui hd
      hpre hfind hclone hflag, rfl, ?_, ?_, ?_⟩
    · simp [Get_Put]
    · simp [Get_Put, herror]
    · intro _
      simp [Get_Put, hdestroy]

/-- C7, on the valid configuration (with `Destroy` false) and a driver whose
calls all succeed. -/
theorem Run_success_witness :
    ∃ res, (sampleStep validConfig).Run slashJoin id ⟨7⟩ (sampleState okDriver) = some res
      ∧ res.action = .ActionContinue
      ∧ res.state.Get "vm" = some (.vm clonedVM)
      ∧ res.state.Get "error" = none
      ∧ ((sampleStep validConfig).Config.Destroy = false →
          res.state.Get "destroy_vm" = none) :=
  Run_success slashJoin id (sampleStep validConfig) ⟨7⟩ (sampleState okDriver) ⟨1⟩ okDriver
    templateVM clonedVM (by rfl) (by rfl) (by rfl) (by rfl) (by rfl) (by rfl) (by rfl)

/-- C8: in every run, `Run` writes the "destroy_vm" key exactly when the clone
succeeded (pre-clean, `FindVM` and `Clone` returned no error and `Clone`
returned a virtual machine) and `Config.Destroy` is true; the value written is
then `true`, it is the value of "destroy_vm" in the final state, and "vm" is
written and set as well; the key is never written with the value `false` and
never written on a run that returns Halt. -/
theorem Run_destroy_vm (pathJoin : String → String → String) (caseTable : Char → Char)
    (s : StepCloneVM) (ctx : Context) (state : StateBag) (res : RunResult)
    (h : s.Run pathJoin caseTable ctx state = some res) :
    ((∃ v, Event.Put "destroy_vm" v ∈ res.trace) ↔
        (s.Config.Destroy = true
          ∧ ∃ ui d template vm,
              state.Get "ui" = some (.ui ui) ∧ state.Get "driver" = some (.driver d)
                ∧ d.PreCleanVM ui (pathJoin s.Location.Folder s.Location.VMName) s.Force
                    s.Location.Cluster s.Location.Host s.Location.ResourcePool = none
                ∧ d.FindVM s.Config.Template = (some template, none)
                ∧ template.Clone ctx (s.cloneConfig caseTable) = (some vm, none)))
      ∧ (∀ v, Event.Put "destroy_vm" v ∈ res.trace →
          v = .bool true
            ∧ res.state.Get "destroy_vm" = some (.bool true)
            ∧ ∃ vm, Event.Put "vm" (.vm vm) ∈ res.trace
                ∧ res.state.Get "vm" = some (.vm vm))
      ∧ Event.Put "destroy_vm" (.bool false) ∉ res.trace
      ∧ (res.action = .ActionHalt → ∀ v, Event.Put "destroy_vm" v ∉ res.trace) := by
  obtain ⟨ui, d, hui, hd, hc⟩ := Run_cases pathJoin caseTable s ctx state res h
  have hui' : ∀ ui', state.Get "ui" = some (.ui ui') → ui' = ui := by
    intro ui' h'
    rw [hui] at h'
    injection h' with h'
    injection h' with h'
    exact h'.symm
  have hd' : ∀ d', state.Get "driver" = some (.driver d') → d' = d := by
    intro d' h'
    rw [hd] at h'
    injection h' with h'
    injection h' with h'
    exact h'.symm
  rcases hc with ⟨err, hpre, rfl⟩ | ⟨hpre, t, err, hfind, rfl⟩ | ⟨hpre, tm, hfind, hc⟩
  · refine ⟨⟨fun ⟨v, hv⟩ => by simp at hv, ?_⟩, fun v hv => by simp at hv, by simp,
      fun _ v hv => by simp at hv⟩
    rintro ⟨-, ui', d', template, vm, hu, hdr, hp, -⟩
    rw [hui' ui' hu, hd' d' hdr, hpre] at hp
    cases hp
  · refine ⟨⟨fun ⟨v, hv⟩ => by simp at hv, ?_⟩, fun v hv => by simp at hv, by simp,
      fun _ v hv => by simp at hv⟩
    rintro ⟨-, ui', d', template, vm, hu, hdr, -, hf, -⟩
    rw [hd' d' hdr, hfind] at hf
    cases hf
  · rcases hc with ⟨v, err, hclone, rfl⟩ | ⟨hclone, rfl⟩ | ⟨vm, hclone, hflag, rfl⟩ |
      ⟨vm, hclone, hflag, rfl⟩
    · refine ⟨⟨fun ⟨v, hv⟩ => by simp at hv, ?_⟩, fun v hv => by simp at hv, by simp,
        fun _ v hv => by simp at hv⟩
      rintro ⟨-, ui', d', template, vm, hu, hdr, -, hf, hcl⟩
      rw [hd' d' hdr, hfind] at hf
      cases hf
      rw [hclone] at hcl
      cases hcl
    · refine ⟨⟨fun ⟨v, hv⟩ => by simp at hv, ?_⟩, fun v hv => by simp at hv, by simp,
        fun _ v hv => by simp at hv⟩
      rintro ⟨-, ui', d', template, vm, hu, hdr, -, hf, hcl⟩
      rw [hd' d' hdr, hfind] at hf
      cases hf
      rw [hclone] at hcl
      cases hcl
    · refine ⟨⟨fun _ => ⟨hflag, ui, d, tm, vm, hui, hd, hpre, hfind, hclone⟩,
        fun _ => ⟨.bool true, by simp⟩⟩, ?_, by simp, fun hhalt => by cases hhalt⟩
      intro v hv
      simp at hv
      subst hv
      exact ⟨rfl, by simp [Get_Put], vm, by simp, by simp [Get_Put]⟩
    · refine ⟨⟨fun ⟨v, hv⟩ => by simp at hv, ?_⟩, fun v hv => by simp at hv, by simp,
        fun hhalt => by cases hhalt⟩
      rintro ⟨htrue, -⟩
      rw [hflag] at htrue
      cases htrue

/-- C8, on a successful run with `Destroy` set: "destroy_vm" is written with the
value `true`, never with `false`, and "vm" is written with it. -/
theorem Run_destroy_vm_witness :
    ∃ res, (sampleStep destroyConfig).Run slashJoin id ⟨7⟩ (sampleState okDriver) = some res
      ∧ (∃ v, Event.Put "destroy_vm" v ∈ res.trace)
      ∧ (∀ v, Event.Put "destroy_vm" v ∈ res.trace →
          v = .bool true
            ∧ res.state.Get "destroy_vm" = some (.bool true)
            ∧ ∃ vm, Event.Put "vm" (.vm vm) ∈ res.trace
                ∧ res.state.Get "vm" = some (.vm vm))
      ∧ Event.Put "destroy_vm" (.bool false) ∉ res.trace :=
  ⟨_, rfl,
    (Run_destroy_vm slashJoin id (sampleStep destroyConfig) ⟨7⟩ (sampleState okDriver) _
      rfl).1.2 ⟨by decide, ⟨1⟩, okDriver, templateVM, clonedVM, rfl, rfl, rfl, rfl, rfl⟩,
    (Run_destroy_vm slashJoin id (sampleStep destroyConfig) ⟨7⟩ (sampleState okDriver) _
      rfl).2.1,
    (Run_destroy_vm slashJoin id (sampleStep destroyConfig) ⟨7⟩ (sampleState okDriver) _
      rfl).2.2.1⟩

/-- C9: when pre-clean succeeds and `FindVM` fails with an error `E`, `Run`
returns Halt and writes under "error" an error whose message is "Error finding
vm to clone: " followed by the message of `E`; that message differs from the
message of `E`, which is what a run records, with `E` itself, when pre-clean or
the clone call fails with `E`; and "vm" is not written. -/
theorem Run_find_failure (pathJoin : String → String → String) (caseTable : Char → Char)
    (s : StepCloneVM) (ctx : Context) (state : StateBag) (ui : Ui) (d : Driver)
    (t : Option VirtualMachine) (E : GoError)
    (hui : state.Get "ui" = some (.ui ui)) (hd : state.Get "driver" = some (.driver d))
    (hpre : d.PreCleanVM ui (pathJoin s.Location.Folder s.Location.VMName) s.Force
      s.Location.Cluster s.Location.Host s.Location.ResourcePool = none)
    (hfind : d.FindVM s.Config.Template = (t, some E)) :
    ∃ res recorded, s.Run pathJoin caseTable ctx state = some res
      ∧ res.action = .ActionHalt
      ∧ res.state.Get "error" = some (.error recorded)
      ∧ Event.Put "error" (.error recorded) ∈ res.trace
      ∧ recorded.Error = "Error finding vm to clone: " ++ E.Error
      ∧ recorded.Error ≠ E.Error
      ∧ (∀ v, Event.Put "vm" v ∉ res.trace)
      ∧ res.state.Get "vm" = state.Get "vm"
      ∧ (∀ (s' : StepCloneVM) (ctx' : Context) (state' : StateBag) (ui' : Ui) (d' : Driver),
          state'.Get "ui" = some (.ui ui') → state'.Get "driver" = some (.driver d') →
          d'.PreCleanVM ui' (pathJoin s'.Location.Folder s'.Location.VMName) s'.Force
            s'.Location.Cluster s'.Location.Host s'.Location.ResourcePool = some E →
          ∃ res', s'.Run pathJoin caseTable ctx' state' = some res'
            ∧ res'.state.Get "error" = some (.error E)
            ∧ recorded.Error ≠ E.Error)
      ∧ (∀ (s' : StepCloneVM) (ctx' : Context) (state' : StateBag) (ui' : Ui) (d' : Driver)
          (template : VirtualMachine) (v : Option VirtualMachine),
          state'.Get "ui" = some (.ui ui') → state'.Get "driver" = some (.driver d') →
          d'.PreCleanVM ui' (pathJoin s'.Location.Folder s'.Location.VMName) s'.Force
            s'.Location.Cluster s'.Location.Host s'.Location.ResourcePool = none →
          d'.FindVM s'.Config.Template = (some template, none) →
          template.Clone ctx' (s'.cloneConfig caseTable) = (v, some E) →
          ∃ res', s'.Run pathJoin caseTable ctx' state' = some res'
            ∧ res'.state.Get "error" = some (.error E)
            ∧ recorded.Error ≠ E.Error) := by
  refine ⟨_, .errorString ("Error finding vm to clone: " ++ E.Error),
    Run_find_error pathJoin caseTable s ctx state ui d t E hui hd hpre hfind, rfl, ?_, ?_,
    rfl, finding_message_ne E.Error, ?_, ?_, ?_, ?_⟩
  · simp [Get_Put]
  · simp
  · intro v hv
    simp at hv
  · simp [Get_Put]
  · intro s' ctx' state' ui' d' hui' hd' hpre'
    exact ⟨_, Run_preclean_error pathJoin caseTable s' ctx' state' ui' d' E hui' hd' hpre',
      by simp [Get_Put], finding_message_ne E.Error⟩
  · intro s' ctx' state' ui' d' template v hui' hd' hpre' hfind' hclone'
    exact ⟨_, Run_clone_error pathJoin caseTable s' ctx' state' ui' d' template v E hui' hd'
      hpre' hfind' hclone', by simp [Get_Put], finding_message_ne E.Error⟩

/-- C9, on a driver whose template lookup fails with "vm 'base-vm' not found",
next to a driver whose pre-clean and a driver whose clone call fail with the
same error. -/
theorem Run_find_failure_witness :
    ∃ res recorded,
      (sampleStep validConfig).Run slashJoin id ⟨7⟩ (sampleState (findFailDriver notFound)) =
          some res
        ∧ res.action = .ActionHalt
        ∧ res.state.Get "error" = some (.error recorded)
        ∧ recorded.Error = "Error finding vm to clone: vm 'base-vm' not found"
        ∧ recorded.Error ≠ notFound.Error
        ∧ res.state.Get "vm" = none
        ∧ (∃ res',
            (sampleStep validConfig).Run slashJoin id ⟨7⟩
                (sampleState (preCleanFailDriver notFound)) = some res'
              ∧ res'.state.Get "error" = some (.error notFound))
        ∧ ∃ res',
            (sampleStep validConfig).Run slashJoin id ⟨7⟩
                (sampleState (cloneFailDriver notFound)) = some res'
              ∧ res'.state.Get "error" = some (.error notFound) := by
  obtain ⟨res, recorded, hrun, hact, herr, -, hmsg, hne, -, hvm, hpre, hclone⟩ :=
    Run_find_failure slashJoin id (sampleStep validConfig) ⟨7⟩
      (sampleState (findFailDriver notFound)) ⟨1⟩ (findFailDriver notFound) none notFound
      rfl rfl rfl rfl
  obtain ⟨res', hrun', herr', -⟩ :=
    hpre (sampleStep validConfig) ⟨7⟩ (sampleState (preCleanFailDriver notFound)) ⟨1⟩
      (preCleanFailDriver notFound) rfl rfl rfl
  obtain ⟨res'', hrun'', herr'', -⟩ :=
    hclone (sampleStep validConfig) ⟨7⟩ (sampleState (cloneFailDriver notFound)) ⟨1⟩
      (cloneFailDriver notFound) (brokenTemplateVM notFound) none rfl rfl rfl rfl rfl
  exact ⟨res, recorded, hrun, hact, herr, by rw [hmsg]; decide, hne, by rw [hvm]; rfl,
    ⟨res', hrun', herr'⟩, res'', hrun'', herr''⟩

/-- C10, as stated, fails: when the template lookup fails with the error "vm
'base-vm' not found", the error recorded under "error" has no underlying
cause, so unwrapping it does not yield that error. -/
theorem Run_find_failure_not_wrapped :
    ∃ res recorded,
      (sampleStep validConfig).Run slashJoin id ⟨7⟩ (sampleState (findFailDriver notFound)) =
          some res
        ∧ res.state.Get "error" = some (.error recorded)
        ∧ errors.Unwrap recorded = none
        ∧ errors.Unwrap recorded ≠ some notFound :=
  ⟨_, .errorString "Error finding vm to clone: vm 'base-vm' not found", rfl, rfl, rfl,
    by decide⟩

/-- C10 (amended): when the template lookup fails with an error `E`, the error
recorded under "error" carries the message of `E` after "Error finding vm to
clone: " and has no underlying cause: unwrapping it yields nil, so the message
of `E` is recoverable from it and `E` itself is not. -/
theorem Run_find_failure_message_only (pathJoin : String → String → String)
    (caseTable : Char → Char)
    (s : StepCloneVM) (ctx : Context) (state : StateBag) (ui : Ui) (d : Driver)
    (t : Option VirtualMachine) (E : GoError)
    (hui : state.Get "ui" = some (.ui ui)) (hd : state.Get "driver" = some (.driver d))
    (hpre : d.PreCleanVM ui (pathJoin s.Location.Folder s.Location.VMName) s.Force
      s.Location.Cluster s.Location.Host s.Location.ResourcePool = none)
    (hfind : d.FindVM s.Config.Template = (t, some E)) :
    ∃ res recorded, s.Run pathJoin caseTable ctx state = some res
      ∧ res.state.Get "error" = some (.error recorded)
      ∧ recorded.Error = "Error finding vm to clone: " ++ E.Error
      ∧ errors.Unwrap recorded = none :=
  ⟨_, .errorString ("Error finding vm to clone: " ++ E.Error),
    Run_find_error pathJoin caseTable s ctx state ui d t E hui hd hpre hfind,
    by simp [Get_Put], rfl, rfl⟩

/-- C10 (amended), on a template lookup that fails with an error which itself
wraps another one. -/
theorem Run_find_failure_message_only_witness :
    ∃ res recorded,
      (sampleStep validConfig).Run slashJoin id ⟨7⟩
          (sampleState (findFailDriver (.wrapError "lookup: timeout" notFound))) = some res
        ∧ res.state.Get "error" = some (.error recorded)
        ∧ recorded.Error =
            "Error finding vm to clone: " ++ (GoError.wrapError "lookup: timeout" notFound).Error
        ∧ errors.Unwrap recorded = none :=
  Run_find_failure_message_only slashJoin id (sampleStep validConfig) ⟨7⟩
    (sampleState (findFailDriver (.wrapError "lookup: timeout" notFound))) ⟨1⟩
    (findFailDriver (.wrapError "lookup: timeout" notFound)) none
    (.wrapError "lookup: timeout" notFound) rfl rfl rfl rfl

/-- C11: when the driver's `PreCleanVM` returns an error `E`, `Run` returns Halt,
the value under "error" is exactly `E`, and neither "vm" nor "destroy_vm" is
written: the one write of the run is that of `E` under "error". -/
theorem Run_preclean_failure (pathJoin : String → String → String) (caseTable : Char → Char)
    (s : StepCloneVM) (ctx : Context) (state : StateBag) (ui : Ui) (d : Driver) (E : GoError)
    (hui : state.Get "ui" = some (.ui ui)) (hd : state.Get "driver" = some (.driver d))
    (hpre : d.PreCleanVM ui (pathJoin s.Location.Folder s.Location.VMName) s.Force
      s.Location.Cluster s.Location.Host s.Location.ResourcePool = some E) :
    ∃ res, s.Run pathJoin caseTable ctx state = some res
      ∧ res.action = .ActionHalt
      ∧ res.state.Get "error" = some (.error E)
      ∧ (∀ k v, Event.Put k v ∈ res.trace → k = "error" ∧ v = .error E)
      ∧ (∀ v, Event.Put "vm" v ∉ res.trace)
      ∧ (∀ v, Event.Put "destroy_vm" v ∉ res.trace)
      ∧ res.state.Get "vm" = state.Get "vm"
      ∧ res.state.Get "destroy_vm" = state.Get "destroy_vm" := by
  refine ⟨_, Run_preclean_error pathJoin caseTable s ctx state ui d E hui hd hpre, rfl, ?_, ?_,
    ?_, ?_, ?_, ?_⟩
  · simp [Get_Put]
  · intro k v hv
    simpa using hv
  · intro v hv
    simp at hv
  · intro v hv
    simp at hv
  · simp [Get_Put]
  · simp [Get_Put]

/-- C11, on a driver whose pre-clean fails with "vm 'base-vm' not found", for a
configuration with `Destroy` set. -/
theorem Run_preclean_failure_witness :
    ∃ res,
      (sampleStep destroyConfig).Run slashJoin id ⟨7⟩
          (sampleState (preCleanFailDriver notFound)) = some res
        ∧ res.action = .ActionHalt
        ∧ res.state.Get "error" = some (.error notFound)
        ∧ res.state.Get "vm" = none
        ∧ res.state.Get "destroy_vm" = none := by
  obtain ⟨res, hrun, hact, herr, -, -, -, hvm, hdestroy⟩ :=
    Run_preclean_failure slashJoin id (sampleStep destroyConfig) ⟨7⟩
      (sampleState (preCleanFailDriver notFound)) ⟨1⟩ (preCleanFailDriver notFound) notFound
      rfl rfl rfl
  exact ⟨res, hrun, hact, herr, by rw [hvm]; rfl, by rw [hdestroy]; rfl⟩

/-- C12: when pre-clean and the template lookup succeed and the template's
`Clone` returns an error `E`, with or without a virtual machine, `Run` returns
Halt, the value under "error" is exactly `E`, and neither "vm" nor
"destroy_vm" is written: the one write of the run is that of `E` under
"error". -/
theorem Run_clone_failure (pathJoin : String → String → String) (caseTable : Char → Char)
    (s : StepCloneVM) (ctx : Context) (state : StateBag) (ui : Ui) (d : Driver)
    (template : VirtualMachine) (v : Option VirtualMachine) (E : GoError)
    (hui : state.Get "ui" = some (.ui ui)) (hd : state.Get "driver" = some (.driver d))
    (hpre : d.PreCleanVM ui (pathJoin s.Location.Folder s.Location.VMName) s.Force
      s.Location.Cluster s.Location.Host s.Location.ResourcePool = none)
    (hfind : d.FindVM s.Config.Template = (some template, none))
    (hclone : template.Clone ctx (s.cloneConfig caseTable) = (v, some E)) :
    ∃ res, s.Run pathJoin caseTable ctx state = some res
      ∧ res.action = .ActionHalt
      ∧ res.state.Get "error" = some (.error E)
      ∧ (∀ k w, Event.Put k w ∈ res.trace → k = "error" ∧ w = .error E)
      ∧ (∀ w, Event.Put "vm" w ∉ res.trace)
      ∧ (∀ w, Event.Put "destroy_vm" w ∉ res.trace)
      ∧ res.state.Get "vm" = state.Get "vm"
      ∧ res.state.Get "destroy_vm" = state.Get "destroy_vm" := by
  refine ⟨_, Run_clone_error pathJoin caseTable s ctx state ui d template v E hui hd hpre hfind
    hclone, rfl, ?_, ?_, ?_, ?_, ?_, ?_⟩
  · simp [Get_Put]
  · intro k w hw
    simpa using hw
  · intro w hw
    simp at hw
  · intro w hw
    simp at hw
  · simp [Get_Put]
  · simp [Get_Put]

/-- C12, on a clone call that returns an error together with a virtual machine,
for a configuration with `Destroy` set: the virtual machine is not recorded. -/
theorem Run_clone_failure_witness :
    ∃ res,
      (sampleStep destroyConfig).Run slashJoin id ⟨7⟩
          (sampleState (halfCloneDriver notFound)) = some res
        ∧ res.action = .ActionHalt
        ∧ res.state.Get "error" = some (.error notFound)
        ∧ res.state.Get "vm" = none
        ∧ res.state.Get "destroy_vm" = none := by
  obtain ⟨res, hrun, hact, herr, -, -, -, hvm, hdestroy⟩ :=
    Run_clone_failure slashJoin id (sampleStep destroyConfig) ⟨7⟩
      (sampleState (halfCloneDriver notFound)) ⟨1⟩ (halfCloneDriver notFound)
      (halfCloneTemplateVM notFound) (some clonedVM) notFound rfl rfl rfl rfl rfl
  exact ⟨res, hrun, hact, herr, by rw [hvm]; rfl, by rw [hdestroy]; rfl⟩

/-- C13: when pre-clean and the template lookup succeed and the template's
`Clone` returns neither a virtual machine nor an error, `Run` returns Halt and
writes nothing: the state bag is the one it started from, so a state without
an "error" entry still has none, and "vm" and "destroy_vm" are not written,
whatever `Config.Destroy` is. -/
theorem Run_clone_nothing (pathJoin : String → String → String) (caseTable : Char → Char)
    (s : StepCloneVM) (ctx : Context) (state : StateBag) (ui : Ui) (d : Driver)
    (template : VirtualMachine)
    (hui : state.Get "ui" = some (.ui ui)) (hd : state.Get "driver" = some (.driver d))
    (hpre : d.PreCleanVM ui (pathJoin s.Location.Folder s.Location.VMName) s.Force
      s.Location.Cluster s.Location.Host s.Location.ResourcePool = none)
    (hfind : d.FindVM s.Config.Template = (some template, none))
    (hclone : template.Clone ctx (s.cloneConfig caseTable) = (none, none)) :
    ∃ res, s.Run pathJoin caseTable ctx state = some res
      ∧ res.action = .ActionHalt
      ∧ res.state = state
      ∧ (∀ k v, Event.Put k v ∉ res.trace)
      ∧ (state.Get "error" = none → res.state.Get "error" = none)
      ∧ res.state.Get "vm" = state.Get "vm"
      ∧ res.state.Get "destroy_vm" = state.Get "destroy_vm" := by
  refine ⟨_, Run_clone_nil pathJoin caseTable s ctx state ui d template hui hd hpre hfind
    hclone, rfl, rfl, ?_, fun h => h, rfl, rfl⟩
  intro k v hv
  simp at hv

/-- C13, on a clone call that returns nothing, for a configuration with
`Destroy` set. -/
theorem Run_clone_nothing_witness :
    ∃ res,
      (sampleStep destroyConfig).Run slashJoin id ⟨7⟩ (sampleState silentCloneDriver) =
          some res
        ∧ res.action = .ActionHalt
        ∧ res.state.Get "error" = none
        ∧ res.state.Get "vm" = none
        ∧ res.state.Get "destroy_vm" = none := by
  obtain ⟨res, hrun, hact, -, -, herr, hvm, hdestroy⟩ :=
    Run_clone_nothing slashJoin id (sampleStep destroyConfig) ⟨7⟩
      (sampleState silentCloneDriver) ⟨1⟩ silentCloneDriver silentTemplateVM
      rfl rfl rfl rfl rfl
  exact ⟨res, hrun, hact, herr rfl, by rw [hvm]; rfl, by rw [hdestroy]; rfl⟩

/-- An ASCII rune that is not a capital letter is its own lower case. -/
theorem unicode_ToLower_ascii_fixed (caseTable : Char → Char) (r : Char)
    (hascii : r.toNat ≤ 0x7F) (hlower : ¬ ('A'.toNat ≤ r.toNat ∧ r.toNat ≤ 'Z'.toNat)) :
    unicode.ToLower caseTable r = r := by
  unfold unicode.ToLower
  rw [if_pos hascii, if_neg hlower]

/-- Lowering a rune twice is lowering it once, when the Unicode case table has
that property beyond ASCII. -/
theorem unicode_ToLower_idem (caseTable : Char → Char)
    (hcase : ∀ r : Char, ¬ r.toNat ≤ 0x7F →
      unicode.ToLower caseTable (caseTable r) = caseTable r)
    (r : Char) :
    unicode.ToLower caseTable (unicode.ToLower caseTable r) = unicode.ToLower caseTable r := by
  by_cases hascii : r.toNat ≤ 0x7F
  · by_cases hupper : 'A'.toNat ≤ r.toNat ∧ r.toNat ≤ 'Z'.toNat
    · have hr : unicode.ToLower caseTable r = Char.ofNat (r.toNat + ('a'.toNat - 'A'.toNat)) := by
        unfold unicode.ToLower
        rw [if_pos hascii, if_pos hupper]
      rw [hr]
      obtain ⟨h1, h2⟩ := hupper
      have h1' : 65 ≤ r.toNat := h1
      have h2' : r.toNat ≤ 90 := h2
      generalize r.toNat = n at h1' h2'
      interval_cases n <;> rfl
    · rw [unicode_ToLower_ascii_fixed caseTable r hascii hupper]
      exact unicode_ToLower_ascii_fixed caseTable r hascii hupper
  · have hr : unicode.ToLower caseTable r = caseTable r := by
      unfold unicode.ToLower
      rw [if_neg hascii]
    rw [hr]
    exact hcase r hascii

/-- Lowering a string twice is lowering it once, under the same condition. -/
theorem strings_ToLower_idem (caseTable : Char → Char)
    (hcase : ∀ r : Char, ¬ r.toNat ≤ 0x7F →
      unicode.ToLower caseTable (caseTable r) = caseTable r)
    (m : String) :
    strings.ToLower caseTable (strings.ToLower caseTable m) = strings.ToLower caseTable m := by
  unfold strings.ToLower
  simp only [List.map_map]
  congr 1
  apply List.map_congr_left
  intro r _
  exact unicode_ToLower_idem caseTable hcase r

/-- A string of ASCII runes without capital letters is its own lower case. -/
theorem strings_ToLower_ascii_fixed (caseTable : Char → Char) (m : String)
    (hm : ∀ r ∈ m.data, r.toNat ≤ 0x7F ∧ ¬ ('A'.toNat ≤ r.toNat ∧ r.toNat ≤ 'Z'.toNat)) :
    strings.ToLower caseTable m = m := by
  unfold strings.ToLower
  have hmap : m.data.map (unicode.ToLower caseTable) = m.data := by
    have hid : m.data.map (unicode.ToLower caseTable) = m.data.map id := by
      apply List.map_congr_left
      intro r hr
      exact unicode_ToLower_ascii_fixed caseTable r (hm r hr).1 (hm r hr).2
    rw [hid, List.map_id]
  rw [hmap]

/-- Every clone call in the trace of a run carries the context of the run and
the request of lines 112-129. -/
theorem Run_clone_request (pathJoin : String → String → String) (caseTable : Char → Char)
    (s : StepCloneVM) (ctx : Context) (state : StateBag) (res : RunResult)
    (template : VirtualMachine) (c : Context) (config : DriverCloneConfig)
    (h : s.Run pathJoin caseTable ctx state = some res)
    (hcall : Event.Clone template c config ∈ res.trace) :
    c = ctx ∧ config = s.cloneConfig caseTable := by
  obtain ⟨ui, d, -, -, hc⟩ := Run_cases pathJoin caseTable s ctx state res h
  rcases hc with ⟨err, -, rfl⟩ | ⟨-, t, err, -, rfl⟩ | ⟨-, tm, -, hc⟩
  · simp at hcall
  · simp at hcall
  · rcases hc with ⟨v, err, -, rfl⟩ | ⟨-, rfl⟩ | ⟨vm, -, -, rfl⟩ | ⟨vm, -, -, rfl⟩ <;>
      simp at hcall <;> exact hcall.2

/-- C14: the `MacAddress` of the clone request `Run` hands to the driver is the
lower case of `Config.MacAddress`.  Lowering is idempotent on every string,
provided the Unicode case table is idempotent beyond ASCII; an address that is
already a lower-case form, and an ASCII address without capital letters, is
handed over unchanged; and "AA:BB:CC" is handed over as "aa:bb:cc". -/
theorem Run_mac_address_lowercase (pathJoin : String → String → String)
    (caseTable : Char → Char)
    (s : StepCloneVM) (ctx : Context) (state : StateBag) (res : RunResult)
    (template : VirtualMachine) (c : Context) (config : DriverCloneConfig)
    (hcase : ∀ r : Char, ¬ r.toNat ≤ 0x7F →
      unicode.ToLower caseTable (caseTable r) = caseTable r)
    (h : s.Run pathJoin caseTable ctx state = some res)
    (hcall : Event.Clone template c config ∈ res.trace) :
    config.MacAddress = strings.ToLower caseTable s.Config.MacAddress
      ∧ (∀ m, strings.ToLower caseTable (strings.ToLower caseTable m) =
          strings.ToLower caseTable m)
      ∧ (∀ m, s.Config.MacAddress = strings.ToLower caseTable m →
          config.MacAddress = s.Config.MacAddress)
      ∧ ((∀ r ∈ s.Config.MacAddress.data,
            r.toNat ≤ 0x7F ∧ ¬ ('A'.toNat ≤ r.toNat ∧ r.toNat ≤ 'Z'.toNat)) →
          config.MacAddress = s.Config.MacAddress)
      ∧ strings.ToLower caseTable "AA:BB:CC" = "aa:bb:cc"
      ∧ (s.Config.MacAddress = "AA:BB:CC" → config.MacAddress = "aa:bb:cc") := by
  have hconfig := (Run_clone_request pathJoin caseTable s ctx state res template c config h
    hcall).2
  have hmac : config.MacAddress = strings.ToLower caseTable s.Config.MacAddress := by
    rw [hconfig]
    rfl
  refine ⟨hmac, strings_ToLower_idem caseTable hcase, ?_, ?_, rfl, ?_⟩
  · intro m hm
    rw [hmac, hm]
    exact strings_ToLower_idem caseTable hcase m
  · intro hm
    rw [hmac]
    exact strings_ToLower_ascii_fixed caseTable s.Config.MacAddress hm
  · intro hm
    rw [hmac, hm]
    rfl

/-- C14, on a run whose configuration has the MAC address "00:50:56:AA:BB:CC":
the request carries "00:50:56:aa:bb:cc". -/
theorem Run_mac_address_lowercase_witness :
    ∃ res config,
      (sampleStep validConfig).Run slashJoin id ⟨7⟩ (sampleState okDriver) = some res
        ∧ Event.Clone templateVM ⟨7⟩ config ∈ res.trace
        ∧ (sampleStep validConfig).Config.MacAddress = "00:50:56:AA:BB:CC"
        ∧ config.MacAddress = "00:50:56:aa:bb:cc"
        ∧ strings.ToLower id (strings.ToLower id "00:50:56:AA:BB:CC") =
            strings.ToLower id "00:50:56:AA:BB:CC" := by
  have hw := Run_mac_address_lowercase slashJoin id (sampleStep validConfig) ⟨7⟩
    (sampleState okDriver) _ templateVM ⟨7⟩ ((sampleStep validConfig).cloneConfig id)
    (fun r hr => by simp [unicode.ToLower, hr]) rfl (by simp)
  exact ⟨_, (sampleStep validConfig).cloneConfig id, rfl, by simp, rfl,
    by rw [hw.1]; rfl, hw.2.1 "00:50:56:AA:BB:CC"⟩

/-- C17: the clone request `Run` hands to the driver copies every field other
than the MAC address verbatim: `Name`, `Folder`, `Cluster`, `Host`,
`ResourcePool` and `Datastore` are the location's `VMName`, `Folder`,
`Cluster`, `Host`, `ResourcePool` and `Datastore`; `LinkedClone` and `Network`
are the configuration's; `Annotation` is `Config.Notes`; `VAppProperties` is
`Config.VAppConfig.Properties`; `PrimaryDiskSize` is `Config.DiskSize`; and
`StorageConfig.DiskControllerType` is `Config.StorageConfig.DiskControllerType`. -/
theorem Run_request_fields (pathJoin : String → String → String) (caseTable : Char → Char)
    (s : StepCloneVM) (ctx : Context) (state : StateBag) (res : RunResult)
    (template : VirtualMachine) (c : Context) (config : DriverCloneConfig)
    (h : s.Run pathJoin caseTable ctx state = some res)
    (hcall : Event.Clone template c config ∈ res.trace) :
    config.Name = s.Location.VMName
      ∧ config.Folder = s.Location.Folder
      ∧ config.Cluster = s.Location.Cluster
      ∧ config.Host = s.Location.Host
      ∧ config.ResourcePool = s.Location.ResourcePool
      ∧ config.Datastore = s.Location.Datastore
      ∧ config.LinkedClone = s.Config.LinkedClone
      ∧ config.Network = s.Config.Network
      ∧ DriverCloneConfig.Annotation config = s.Config.Notes
      ∧ config.VAppProperties = s.Config.VAppConfig.Properties
      ∧ config.PrimaryDiskSize = s.Config.DiskSize
      ∧ config.StorageConfig.DiskControllerType = s.Config.StorageConfig.DiskControllerType := by
  have hconfig := (Run_clone_request pathJoin caseTable s ctx state res template c config h
    hcall).2
  subst hconfig
  exact ⟨rfl, rfl, rfl, rfl, rfl, rfl, rfl, rfl, rfl, rfl, rfl, rfl⟩

/-- C17, on a successful run of the valid configuration at the sample location. -/
theorem Run_request_fields_witness :
    ∃ res config,
      (sampleStep validConfig).Run slashJoin id ⟨7⟩ (sampleState okDriver) = some res
        ∧ Event.Clone templateVM ⟨7⟩ config ∈ res.trace
        ∧ config.Name = "clone-01"
        ∧ config.Folder = "builds"
        ∧ config.Cluster = "cluster-a"
        ∧ config.Host = "esx-1"
        ∧ config.ResourcePool = "pool-1"
        ∧ config.Datastore = "ds-1"
        ∧ config.LinkedClone = false
        ∧ config.Network = "VM Network"
        ∧ DriverCloneConfig.Annotation config = "built by packer"
        ∧ config.VAppProperties = [("hostname", "clone-01")]
        ∧ config.PrimaryDiskSize = 0
        ∧ config.StorageConfig.DiskControllerType = ["pvscsi", "lsilogic"] :=
  ⟨_, (sampleStep validConfig).cloneConfig id, rfl, by simp,
    Run_request_fields slashJoin id (sampleStep validConfig) ⟨7⟩ (sampleState okDriver) _
      templateVM ⟨7⟩ ((sampleStep validConfig).cloneConfig id) rfl (by simp)⟩

/-- Overwriting elements of a slice keeps its length. -/
theorem overwriteElems_length (old written : List String) :
    (overwriteElems old written).length = old.length := by
  induction old generalizing written with
  | nil => simp [overwriteElems]
  | cons x xs ih =>
    cases written with
    | nil => simp [overwriteElems]
    | cons y ys => simp [overwriteElems, ih]

/-- Overwriting the elements of a slice with themselves leaves the slice. -/
theorem overwriteElems_self (old : List String) : overwriteElems old old = old := by
  induction old with
  | nil => simp [overwriteElems]
  | cons x xs ih => simp [overwriteElems, ih]

/-- A clone call that left the map and the slice of the request of lines 112-129
as they were leaves the step as it was. -/
theorem afterClone_unchanged (caseTable : Char → Char) (s : StepCloneVM)
    (writes : List (String × String) × List String)
    (hwrites : writes = ((s.cloneConfig caseTable).VAppProperties,
      (s.cloneConfig caseTable).StorageConfig.DiskControllerType)) :
    s.afterClone writes = s := by
  subst hwrites
  unfold StepCloneVM.afterClone StepCloneVM.cloneConfig
  simp only [overwriteElems_self]

/-- A run that returns leaves the step as it was, or as the clone call it made
left it. -/
theorem Run_self_cases (pathJoin : String → String → String) (caseTable : Char → Char)
    (s : StepCloneVM) (ctx : Context) (state : StateBag) (res : RunResult)
    (h : s.Run pathJoin caseTable ctx state = some res) :
    ((∀ template c config, Event.Clone template c config ∉ res.trace) ∧ res.self = s)
      ∨ ∃ template, Event.Clone template ctx (s.cloneConfig caseTable) ∈ res.trace
          ∧ res.self = s.afterClone (template.CloneWrites ctx (s.cloneConfig caseTable)) := by
  obtain ⟨ui, d, -, -, hc⟩ := Run_cases pathJoin caseTable s ctx state res h
  rcases hc with ⟨err, -, rfl⟩ | ⟨-, t, err, -, rfl⟩ | ⟨-, tm, -, hc⟩
  · exact Or.inl ⟨fun template c config hcall => by simp at hcall, rfl⟩
  · exact Or.inl ⟨fun template c config hcall => by simp at hcall, rfl⟩
  · rcases hc with ⟨v, err, -, rfl⟩ | ⟨-, rfl⟩ | ⟨vm, -, -, rfl⟩ | ⟨vm, -, -, rfl⟩ <;>
      exact Or.inr ⟨tm, by simp, rfl⟩

/-- C18, as stated, fails: the request of the clone call holds the map of
`Config.VAppConfig.Properties` and a slice on the array of
`Config.StorageConfig.DiskControllerType`, so after a run with a driver whose
clone call writes "overwritten" under "hostname" and "nvme" at index 0, the
configuration has these values and not the ones it had. -/
theorem Run_config_written_by_driver :
    ∃ res,
      (sampleStep validConfig).Run slashJoin id ⟨7⟩ (sampleState writingDriver) = some res
        ∧ res.action = .ActionContinue
        ∧ (sampleStep validConfig).Config.VAppConfig.Properties = [("hostname", "clone-01")]
        ∧ res.self.Config.VAppConfig.Properties = [("hostname", "overwritten")]
        ∧ (sampleStep validConfig).Config.StorageConfig.DiskControllerType =
            ["pvscsi", "lsilogic"]
        ∧ res.self.Config.StorageConfig.DiskControllerType = ["nvme", "lsilogic"]
        ∧ res.self.Config ≠ (sampleStep validConfig).Config :=
  ⟨_, rfl, rfl, rfl, rfl, rfl, rfl, by decide⟩

/-- C18 (amended): `Run` itself writes to no field of its configuration.  After
every run that returns, whatever the driver does, `Location`, `Force` and
every field of `Config` other than `VAppConfig.Properties` and the elements of
`StorageConfig.DiskControllerType` have the values they had: `MacAddress`
keeps its casing, only the copy in the request being lowered, `Storage` keeps
its entries and their order, and `DiskControllerType` keeps its length.  When
no clone call of the run wrote to the map or to the slice of its request, the
step is the step it was, so `VAppConfig.Properties` and `DiskControllerType`
have the values they had as well. -/
theorem Run_config_unchanged (pathJoin : String → String → String) (caseTable : Char → Char)
    (s : StepCloneVM) (ctx : Context) (state : StateBag) (res : RunResult)
    (h : s.Run pathJoin caseTable ctx state = some res) :
    res.self.Location = s.Location
      ∧ res.self.Force = s.Force
      ∧ res.self.Config.Template = s.Config.Template
      ∧ res.self.Config.DiskSize = s.Config.DiskSize
      ∧ res.self.Config.LinkedClone = s.Config.LinkedClone
      ∧ res.self.Config.Network = s.Config.Network
      ∧ res.self.Config.MacAddress = s.Config.MacAddress
      ∧ res.self.Config.Notes = s.Config.Notes
      ∧ res.self.Config.Destroy = s.Config.Destroy
      ∧ res.self.Config.StorageConfig.Storage = s.Config.StorageConfig.Storage
      ∧ res.self.Config.StorageConfig.DiskControllerType.length =
          s.Config.StorageConfig.DiskControllerType.length
      ∧ (∀ template c config, Event.Clone template c config ∈ res.trace →
          config.MacAddress = strings.ToLower caseTable res.self.Config.MacAddress)
      ∧ ((∀ template c config, Event.Clone template c config ∈ res.trace →
            template.CloneWrites c config =
              (config.VAppProperties, config.StorageConfig.DiskControllerType)) →
          res.self = s
            ∧ res.self.Config.VAppConfig.Properties = s.Config.VAppConfig.Properties
            ∧ res.self.Config.StorageConfig.DiskControllerType =
                s.Config.StorageConfig.DiskControllerType) := by
  rcases Run_self_cases pathJoin caseTable s ctx state res h with
    ⟨hno, hself⟩ | ⟨tm, hcall, hself⟩
  · refine ⟨by rw [hself], by rw [hself], by rw [hself], by rw [hself], by rw [hself],
      by rw [hself], by rw [hself], by rw [hself], by rw [hself], by rw [hself],
      by rw [hself], ?_, ?_⟩
    · intro template c config hc
      exact absurd hc (hno template c config)
    · intro _
      exact ⟨hself, by rw [hself], by rw [hself]⟩
  · have hlen : res.self.Config.StorageConfig.DiskControllerType.length =
        s.Config.StorageConfig.DiskControllerType.length := by
      rw [hself]
      exact overwriteElems_length _ _
    refine ⟨by rw [hself]; rfl, by rw [hself]; rfl, by rw [hself]; rfl, by rw [hself]; rfl,
      by rw [hself]; rfl, by rw [hself]; rfl, by rw [hself]; rfl, by rw [hself]; rfl,
      by rw [hself]; rfl, by rw [hself]; rfl, hlen, ?_, ?_⟩
    · intro template c config hc
      rw [hself, (Run_clone_request pathJoin caseTable s ctx state res template c config h
        hc).2]
      rfl
    · intro hread
      have hs : res.self = s := by
        rw [hself]
        exact afterClone_unchanged caseTable s _ (hread tm ctx _ hcall)
      exact ⟨hs, by rw [hs], by rw [hs]⟩

/-- C18 (amended), on a run with a driver whose clone call writes to the map and
the slice of its request: the configuration keeps its MAC address
"00:50:56:AA:BB:CC", while the request got "00:50:56:aa:bb:cc", and its two
disks and its other fields; and on a run with a driver that only reads: the
step is the step it was. -/
theorem Run_config_unchanged_witness :
    (∃ res config,
        (sampleStep validConfig).Run slashJoin id ⟨7⟩ (sampleState writingDriver) = some res
          ∧ Event.Clone writingTemplateVM ⟨7⟩ config ∈ res.trace
          ∧ config.MacAddress = "00:50:56:aa:bb:cc"
          ∧ res.self.Location = sampleLocation
          ∧ res.self.Config.MacAddress = "00:50:56:AA:BB:CC"
          ∧ res.self.Config.StorageConfig.Storage = twoDisks.Storage
          ∧ res.self.Config.StorageConfig.DiskControllerType.length = 2)
      ∧ ∃ res,
          (sampleStep validConfig).Run slashJoin id ⟨7⟩ (sampleState okDriver) = some res
            ∧ res.self.Config = validConfig
            ∧ res.self.Config.VAppConfig.Properties = [("hostname", "clone-01")] := by
  have hw := Run_config_unchanged slashJoin id (sampleStep validConfig) ⟨7⟩
    (sampleState writingDriver) _ rfl
  have hr := (Run_config_unchanged slashJoin id (sampleStep validConfig) ⟨7⟩
    (sampleState okDriver) _ rfl).2.2.2.2.2.2.2.2.2.2.2.2 (by
      intro template c config hcall
      simp at hcall
      obtain ⟨rfl, rfl, rfl⟩ := hcall
      rfl)
  exact ⟨⟨_, (sampleStep validConfig).cloneConfig id, rfl, by simp, rfl, hw.1,
      hw.2.2.2.2.2.2.1, hw.2.2.2.2.2.2.2.2.2.1, hw.2.2.2.2.2.2.2.2.2.2.1⟩,
    _, rfl, by rw [hr.1]; rfl, hr.2.1⟩

/-- The user interface in the state bag is the one read at line 85. -/
theorem Get_ui_unique (state : StateBag) (ui ui' : Ui)
    (h : state.Get "ui" = some (.ui ui)) (h' : state.Get "ui" = some (.ui ui')) : ui' = ui := by
  rw [h] at h'
  injection h' with h'
  injection h' with h'
  exact h'.symm

/-- The driver in the state bag is the one read at line 86. -/
theorem Get_driver_unique (state : StateBag) (d d' : Driver)
    (h : state.Get "driver" = some (.driver d)) (h' : state.Get "driver" = some (.driver d')) :
    d' = d := by
  rw [h] at h'
  injection h' with h'
  injection h' with h'
  exact h'.symm

/-- The six kinds of returning run, for the user interface and the driver that
the state bag holds. -/
theorem Run_cases_at (pathJoin : String → String → String) (caseTable : Char → Char)
    (s : StepCloneVM) (ctx : Context) (state : StateBag) (res : RunResult)
    (ui : Ui) (d : Driver)
    (hui : state.Get "ui" = some (.ui ui)) (hd : state.Get "driver" = some (.driver d))
    (h : s.Run pathJoin caseTable ctx state = some res) :
    ((∃ err,
          d.PreCleanVM ui (pathJoin s.Location.Folder s.Location.VMName) s.Force
            s.Location.Cluster s.Location.Host s.Location.ResourcePool = some err ∧
          res = ⟨.ActionHalt, state.Put "error" (.error err),
            [.PreCleanVM ui (pathJoin s.Location.Folder s.Location.VMName) s.Force
                s.Location.Cluster s.Location.Host s.Location.ResourcePool,
              .Put "error" (.error err)], s⟩)
        ∨ (d.PreCleanVM ui (pathJoin s.Location.Folder s.Location.VMName) s.Force
              s.Location.Cluster s.Location.Host s.Location.ResourcePool = none ∧
            ∃ t err, d.FindVM s.Config.Template = (t, some err) ∧
              res = ⟨.ActionHalt,
                state.Put "error"
                  (.error (.errorString ("Error finding vm to clone: " ++ err.Error))),
                [.PreCleanVM ui (pathJoin s.Location.Folder s.Location.VMName) s.Force
                    s.Location.Cluster s.Location.Host s.Location.ResourcePool,
                  .Say ui "Cloning VM...", .FindVM s.Config.Template,
                  .Put "error"
                    (.error (.errorString ("Error finding vm to clone: " ++ err.Error)))],
                s⟩)
        ∨ (d.PreCleanVM ui (pathJoin s.Location.Folder s.Location.VMName) s.Force
              s.Location.Cluster s.Location.Host s.Location.ResourcePool = none ∧
            ∃ template, d.FindVM s.Config.Template = (some template, none) ∧
              ((∃ v err, template.Clone ctx (s.cloneConfig caseTable) = (v, some err) ∧
                  res = ⟨.ActionHalt, state.Put "error" (.error err),
                    [.PreCleanVM ui (pathJoin s.Location.Folder s.Location.VMName) s.Force
                        s.Location.Cluster s.Location.Host s.Location.ResourcePool,
                      .Say ui "Cloning VM...", .FindVM s.Config.Template,
                      .Clone template ctx (s.cloneConfig caseTable),
                      .Put "error" (.error err)],
                    s.afterClone (template.CloneWrites ctx (s.cloneConfig caseTable))⟩)
                ∨ (template.Clone ctx (s.cloneConfig caseTable) = (none, none) ∧
                    res = ⟨.ActionHalt, state,
                      [.PreCleanVM ui (pathJoin s.Location.Folder s.Location.VMName) s.Force
                          s.Location.Cluster s.Location.Host s.Location.ResourcePool,
                        .Say ui "Cloning VM...", .FindVM s.Config.Template,
                        .Clone template ctx (s.cloneConfig caseTable)],
                      s.afterClone (template.CloneWrites ctx (s.cloneConfig caseTable))⟩)
                ∨ (∃ vm, template.Clone ctx (s.cloneConfig caseTable) = (some vm, none) ∧
                    s.Config.Destroy = true ∧
                    res = ⟨.ActionContinue,
                      (state.Put "destroy_vm" (.bool true)).Put "vm" (.vm vm),
                      [.PreCleanVM ui (pathJoin s.Location.Folder s.Location.VMName) s.Force
                          s.Location.Cluster s.Location.Host s.Location.ResourcePool,
                        .Say ui "Cloning VM...", .FindVM s.Config.Template,
                        .Clone template ctx (s.cloneConfig caseTable),
                        .Put "destroy_vm" (.bool true), .Put "vm" (.vm vm)],
                      s.afterClone (template.CloneWrites ctx (s.cloneConfig caseTable))⟩)
                ∨ (∃ vm, template.Clone ctx (s.cloneConfig caseTable) = (some vm, none) ∧
                    s.Config.Destroy = false ∧
                    res = ⟨.ActionContinue, state.Put "vm" (.vm vm),
                      [.PreCleanVM ui (pathJoin s.Location.Folder s.Location.VMName) s.Force
                          s.Location.Cluster s.Location.Host s.Location.ResourcePool,
                        .Say ui "Cloning VM...", .FindVM s.Config.Template,
                        .Clone template ctx (s.cloneConfig caseTable),
                        .Put "vm" (.vm vm)],
                      s.afterClone (template.CloneWrites ctx (s.cloneConfig caseTable))⟩)))) := by
  obtain ⟨ui', d', hui', hd', hc⟩ := Run_cases pathJoin caseTable s ctx state res h
  have e1 := Get_ui_unique state ui ui' hui hui'
  have e2 := Get_driver_unique state d d' hd hd'
  subst e1
  subst e2
  exact hc

/-- A run returns when the state bag holds a user interface and a driver and the
template lookup returns a virtual machine or an error. -/
theorem Run_returns (pathJoin : String → String → String) (caseTable : Char → Char)
    (s : StepCloneVM) (ctx : Context) (state : StateBag) (ui : Ui) (d : Driver)
    (hui : state.Get "ui" = some (.ui ui)) (hd : state.Get "driver" = some (.driver d))
    (hfound : d.FindVM s.Config.Template ≠ (none, none)) :
    ∃ res, s.Run pathJoin caseTable ctx state = some res := by
  cases hpre : d.PreCleanVM ui (pathJoin s.Location.Folder s.Location.VMName) s.Force
      s.Location.Cluster s.Location.Host s.Location.ResourcePool with
  | some err => exact ⟨_, Run_preclean_error pathJoin caseTable s ctx state ui d err hui hd hpre⟩
  | none =>
    rcases hfind : d.FindVM s.Config.Template with ⟨t, e⟩
    cases e with
    | some err =>
      exact ⟨_, Run_find_error pathJoin caseTable s ctx state ui d t err hui hd hpre hfind⟩
    | none =>
      cases t with
      | none => exact absurd hfind hfound
      | some template =>
        rcases hclone : template.Clone ctx (s.cloneConfig caseTable) with ⟨v, e⟩
        cases e with
        | some err =>
          exact ⟨_, Run_clone_error pathJoin caseTable s ctx state ui d template v err hui hd
            hpre hfind hclone⟩
        | none =>
          cases v with
          | none =>
            exact ⟨_, Run_clone_nil pathJoin caseTable s ctx state ui d template hui hd hpre
              hfind hclone⟩
          | some vm =>
            cases hdestroy : s.Config.Destroy with
            | true =>
              exact ⟨_, Run_clone_ok_destroy pathJoin caseTable s ctx state ui d template vm
                hui hd hpre hfind hclone hdestroy⟩
            | false =>
              exact ⟨_, Run_clone_ok_keep pathJoin caseTable s ctx state ui d template vm
                hui hd hpre hfind hclone hdestroy⟩

/-- A run panics only at the type assertions of lines 85 and 86, before any call,
or at line 112, after a pre-clean without error and a template lookup that
returned neither a virtual machine nor an error. -/
theorem Run_none_cases (pathJoin : String → String → String) (caseTable : Char → Char)
    (s : StepCloneVM) (ctx : Context) (state : StateBag)
    (h : s.Run pathJoin caseTable ctx state = none) :
    (∀ ui, state.Get "ui" ≠ some (.ui ui))
      ∨ (∀ d, state.Get "driver" ≠ some (.driver d))
      ∨ ∃ ui d, state.Get "ui" = some (.ui ui) ∧ state.Get "driver" = some (.driver d)
          ∧ d.PreCleanVM ui (pathJoin s.Location.Folder s.Location.VMName) s.Force
              s.Location.Cluster s.Location.Host s.Location.ResourcePool = none
          ∧ d.FindVM s.Config.Template = (none, none) := by
  by_cases hui : ∃ ui, state.Get "ui" = some (.ui ui)
  · by_cases hd : ∃ d, state.Get "driver" = some (.driver d)
    · obtain ⟨ui, hui⟩ := hui
      obtain ⟨d, hd⟩ := hd
      refine Or.inr (Or.inr ⟨ui, d, hui, hd, ?_⟩)
      by_cases hfound : d.FindVM s.Config.Template = (none, none)
      · refine ⟨?_, hfound⟩
        cases hpre : d.PreCleanVM ui (pathJoin s.Location.Folder s.Location.VMName) s.Force
            s.Location.Cluster s.Location.Host s.Location.ResourcePool with
        | none => rfl
        | some err =>
          rw [Run_preclean_error pathJoin caseTable s ctx state ui d err hui hd hpre] at h
          exact absurd h (by simp)
      · obtain ⟨res, hres⟩ := Run_returns pathJoin caseTable s ctx state ui d hui hd hfound
        rw [hres] at h
        exact absurd h (by simp)
    · exact Or.inr (Or.inl (fun d hd' => hd ⟨d, hd'⟩))
  · exact Or.inl (fun ui hui' => hui ⟨ui, hui'⟩)

/-- C15: `Run` is fail-fast and strictly ordered.  In every run that returns, the
driver calls are a beginning of PreCleanVM, FindVM, Clone, each made at most
once; FindVM is called only if PreCleanVM returned no error and Clone only if
FindVM returned no error; and a failing call is followed by the write of its
error under "error" and nothing else (by nothing at all when Clone returns
neither a virtual machine nor an error).  A run that does not return panics
before any call, or at the clone call after PreCleanVM and FindVM returned no
error. -/
theorem Run_fail_fast (pathJoin : String → String → String) (caseTable : Char → Char)
    (s : StepCloneVM) (ctx : Context) (state : StateBag) :
    (∀ res ui d, s.Run pathJoin caseTable ctx state = some res →
        state.Get "ui" = some (.ui ui) → state.Get "driver" = some (.driver d) →
        (∃ rest, driverCalls res.trace ++ rest = [.PreCleanVM, .FindVM, .Clone])
          ∧ (driverCalls res.trace).Nodup
          ∧ (DriverCall.FindVM ∈ driverCalls res.trace →
              d.PreCleanVM ui (pathJoin s.Location.Folder s.Location.VMName) s.Force
                s.Location.Cluster s.Location.Host s.Location.ResourcePool = none)
          ∧ (DriverCall.Clone ∈ driverCalls res.trace →
              (d.FindVM s.Config.Template).2 = none)
          ∧ (∀ err,
              d.PreCleanVM ui (pathJoin s.Location.Folder s.Location.VMName) s.Force
                s.Location.Cluster s.Location.Host s.Location.ResourcePool = some err →
              res.trace =
                [.PreCleanVM ui (pathJoin s.Location.Folder s.Location.VMName) s.Force
                    s.Location.Cluster s.Location.Host s.Location.ResourcePool,
                  .Put "error" (.error err)])
          ∧ (d.PreCleanVM ui (pathJoin s.Location.Folder s.Location.VMName) s.Force
                s.Location.Cluster s.Location.Host s.Location.ResourcePool = none →
              ∀ t err, d.FindVM s.Config.Template = (t, some err) →
              res.trace =
                [.PreCleanVM ui (pathJoin s.Location.Folder s.Location.VMName) s.Force
                    s.Location.Cluster s.Location.Host s.Location.ResourcePool,
                  .Say ui "Cloning VM...", .FindVM s.Config.Template,
                  .Put "error"
                    (.error (.errorString ("Error finding vm to clone: " ++ err.Error)))])
          ∧ (d.PreCleanVM ui (pathJoin s.Location.Folder s.Location.VMName) s.Force
                s.Location.Cluster s.Location.Host s.Location.ResourcePool = none →
              ∀ template v err, d.FindVM s.Config.Template = (some template, none) →
              template.Clone ctx (s.cloneConfig caseTable) = (v, some err) →
              res.trace =
                [.PreCleanVM ui (pathJoin s.Location.Folder s.Location.VMName) s.Force
                    s.Location.Cluster s.Location.Host s.Location.ResourcePool,
                  .Say ui "Cloning VM...", .FindVM s.Config.Template,
                  .Clone template ctx (s.cloneConfig caseTable),
                  .Put "error" (.error err)])
          ∧ (d.PreCleanVM ui (pathJoin s.Location.Folder s.Location.VMName) s.Force
                s.Location.Cluster s.Location.Host s.Location.ResourcePool = none →
              ∀ template, d.FindVM s.Config.Template = (some template, none) →
              template.Clone ctx (s.cloneConfig caseTable) = (none, none) →
              res.trace =
                [.PreCleanVM ui (pathJoin s.Location.Folder s.Location.VMName) s.Force
                    s.Location.Cluster s.Location.Host s.Location.ResourcePool,
                  .Say ui "Cloning VM...", .FindVM s.Config.Template,
                  .Clone template ctx (s.cloneConfig caseTable)]))
      ∧ (s.Run pathJoin caseTable ctx state = none →
          (∀ ui, state.Get "ui" ≠ some (.ui ui))
            ∨ (∀ d, state.Get "driver" ≠ some (.driver d))
            ∨ ∃ ui d, state.Get "ui" = some (.ui ui)
                ∧ state.Get "driver" = some (.driver d)
                ∧ d.PreCleanVM ui (pathJoin s.Location.Folder s.Location.VMName) s.Force
                    s.Location.Cluster s.Location.Host s.Location.ResourcePool = none
                ∧ d.FindVM s.Config.Template = (none, none)) := by
  refine ⟨?_, Run_none_cases pathJoin caseTable s ctx state⟩
  intro res ui d h hui hd
  rcases Run_cases_at pathJoin caseTable s ctx state res ui d hui hd h with
    ⟨err, hpre, rfl⟩ | ⟨hpre, t, err, hfind, rfl⟩ | ⟨hpre, tm, hfind, hc⟩
  · refine ⟨⟨[.FindVM, .Clone], by simp [driverCalls, Event.driverCall]⟩,
      by simp [driverCalls, Event.driverCall], by simp [driverCalls, Event.driverCall],
      by simp [driverCalls, Event.driverCall], ?_, ?_, ?_, ?_⟩
    · intro err' he
      rw [hpre] at he
      cases he
      rfl
    all_goals
      intro hnone
      rw [hpre] at hnone
      cases hnone
  · refine ⟨⟨[.Clone], by simp [driverCalls, Event.driverCall]⟩,
      by simp [driverCalls, Event.driverCall], fun _ => hpre,
      by simp [driverCalls, Event.driverCall], ?_, ?_, ?_, ?_⟩
    · intro err' he
      rw [hpre] at he
      cases he
    · intro _ t' err' hf
      rw [hfind] at hf
      cases hf
      rfl
    · intro _ template v err' hf
      rw [hfind] at hf
      cases hf
    · intro _ template hf
      rw [hfind] at hf
      cases hf
  · have hcalls : ∀ (tail : List Event), (∀ e ∈ tail, e.driverCall = none) →
        driverCalls
          ([.PreCleanVM ui (pathJoin s.Location.Folder s.Location.VMName) s.Force
              s.Location.Cluster s.Location.Host s.Location.ResourcePool,
            .Say ui "Cloning VM...", .FindVM s.Config.Template,
            .Clone tm ctx (s.cloneConfig caseTable)] ++ tail) =
          [.PreCleanVM, .FindVM, .Clone] := by
      intro tail htail
      have htail' : tail.filterMap Event.driverCall = [] := by
        rw [List.filterMap_eq_nil_iff]
        exact htail
      simp [driverCalls, Event.driverCall, List.filterMap_append, htail']
    have hshape : ∀ (tail : List Event), (∀ e ∈ tail, e.driverCall = none) →
        (∃ rest, driverCalls
            ([.PreCleanVM ui (pathJoin s.Location.Folder s.Location.VMName) s.Force
                s.Location.Cluster s.Location.Host s.Location.ResourcePool,
              .Say ui "Cloning VM...", .FindVM s.Config.Template,
              .Clone tm ctx (s.cloneConfig caseTable)] ++ tail) ++ rest =
            [.PreCleanVM, .FindVM, .Clone])
          ∧ (driverCalls
            ([.PreCleanVM ui (pathJoin s.Location.Folder s.Location.VMName) s.Force
                s.Location.Cluster s.Location.Host s.Location.ResourcePool,
              .Say ui "Cloning VM...", .FindVM s.Config.Template,
              .Clone tm ctx (s.cloneConfig caseTable)] ++ tail)).Nodup := by
      intro tail htail
      rw [hcalls tail htail]
      exact ⟨⟨[], by simp⟩, by decide⟩
    have hfind2 : (d.FindVM s.Config.Template).2 = none := by rw [hfind]
    have hnopre : ∀ err',
        d.PreCleanVM ui (pathJoin s.Location.Folder s.Location.VMName) s.Force
          s.Location.Cluster s.Location.Host s.Location.ResourcePool = some err' → False := by
      intro err' he
      rw [hpre] at he
      cases he
    have hnofind : ∀ t' err', d.FindVM s.Config.Template = (t', some err') → False := by
      intro t' err' hf
      rw [hfind] at hf
      cases hf
    have htm : ∀ template, d.FindVM s.Config.Template = (some template, none) →
        template = tm := by
      intro template hf
      rw [hfind] at hf
      cases hf
      rfl
    rcases hc with ⟨v, err, hclone, rfl⟩ | ⟨hclone, rfl⟩ | ⟨vm, hclone, hflag, rfl⟩ |
      ⟨vm, hclone, hflag, rfl⟩
    · refine ⟨(hshape [.Put "error" (.error err)] (by simp [Event.driverCall])).1,
        (hshape [.Put "error" (.error err)] (by simp [Event.driverCall])).2,
        fun _ => hpre, fun _ => hfind2, fun e he => (hnopre e he).elim,
        fun _ t' e hf => (hnofind t' e hf).elim, ?_, ?_⟩
      · intro _ template v' err' hf hcl
        have := htm template hf
        subst this
        rw [hclone] at hcl
        cases hcl
        rfl
      · intro _ template hf hcl
        have := htm template hf
        subst this
        rw [hclone] at hcl
        cases hcl
    · refine ⟨(hshape [] (by simp)).1, (hshape [] (by simp)).2,
        fun _ => hpre, fun _ => hfind2, fun e he => (hnopre e he).elim,
        fun _ t' e hf => (hnofind t' e hf).elim, ?_, ?_⟩
      · intro _ template v' err' hf hcl
        have := htm template hf
        subst this
        rw [hclone] at hcl
        cases hcl
      · intro _ template hf hcl
        have := htm template hf
        subst this
        rfl
    · refine ⟨(hshape [.Put "destroy_vm" (.bool true), .Put "vm" (.vm vm)]
          (by simp [Event.driverCall])).1,
        (hshape [.Put "destroy_vm" (.bool true), .Put "vm" (.vm vm)]
          (by simp [Event.driverCall])).2,
        fun _ => hpre, fun _ => hfind2, fun e he => (hnopre e he).elim,
        fun _ t' e hf => (hnofind t' e hf).elim, ?_, ?_⟩
      · intro _ template v' err' hf hcl
        have := htm template hf
        subst this
        rw [hclone] at hcl
        cases hcl
      · intro _ template hf hcl
        have := htm template hf
        subst this
        rw [hclone] at hcl
        cases hcl
    · refine ⟨(hshape [.Put "vm" (.vm vm)] (by simp [Event.driverCall])).1,
        (hshape [.Put "vm" (.vm vm)] (by simp [Event.driverCall])).2,
        fun _ => hpre, fun _ => hfind2, fun e he => (hnopre e he).elim,
        fun _ t' e hf => (hnofind t' e hf).elim, ?_, ?_⟩
      · intro _ template v' err' hf hcl
        have := htm template hf
        subst this
        rw [hclone] at hcl
        cases hcl
      · intro _ template hf hcl
        have := htm template hf
        subst this
        rw [hclone] at hcl
        cases hcl

/-- C15, on a run whose template lookup fails: the calls are PreCleanVM and
FindVM, the clone call is not made, and the write of the error ends the
trace. -/
theorem Run_fail_fast_witness :
    ∃ res,
      (sampleStep validConfig).Run slashJoin id ⟨7⟩ (sampleState (findFailDriver notFound)) =
          some res
        ∧ driverCalls res.trace = [.PreCleanVM, .FindVM]
        ∧ res.trace =
            [.PreCleanVM ⟨1⟩ (slashJoin "builds" "clone-01") false "cluster-a" "esx-1" "pool-1",
              .Say ⟨1⟩ "Cloning VM...", .FindVM "base-vm",
              .Put "error"
                (.error (.errorString ("Error finding vm to clone: " ++ notFound.Error)))] :=
  ⟨_, rfl, rfl,
    ((Run_fail_fast slashJoin id (sampleStep validConfig) ⟨7⟩
      (sampleState (findFailDriver notFound))).1 _ ⟨1⟩ (findFailDriver notFound) rfl rfl
      rfl).2.2.2.2.2.1 rfl none notFound rfl⟩

/-- C16: `Run` writes only the keys "vm", "error" and "destroy_vm".  After every
run that returns, every other key, "ui" and "driver" included, has the value
it had; every write of the run is under one of the three keys; a write under
"error" occurs exactly when one of the driver calls made returned an error;
and the run returns Halt exactly when one of them returned an error or the
clone call returned neither a virtual machine nor an error. -/
theorem Run_writes_only (pathJoin : String → String → String) (caseTable : Char → Char)
    (s : StepCloneVM) (ctx : Context) (state : StateBag) (res : RunResult)
    (ui : Ui) (d : Driver)
    (h : s.Run pathJoin caseTable ctx state = some res)
    (hui : state.Get "ui" = some (.ui ui)) (hd : state.Get "driver" = some (.driver d)) :
    (∀ k, k ≠ "vm" → k ≠ "error" → k ≠ "destroy_vm" → res.state.Get k = state.Get k)
      ∧ res.state.Get "ui" = state.Get "ui"
      ∧ res.state.Get "driver" = state.Get "driver"
      ∧ (∀ k v, Event.Put k v ∈ res.trace → k = "vm" ∨ k = "error" ∨ k = "destroy_vm")
      ∧ ((∃ v, Event.Put "error" v ∈ res.trace) ↔
          ((∃ err,
              d.PreCleanVM ui (pathJoin s.Location.Folder s.Location.VMName) s.Force
                s.Location.Cluster s.Location.Host s.Location.ResourcePool = some err)
            ∨ (d.PreCleanVM ui (pathJoin s.Location.Folder s.Location.VMName) s.Force
                  s.Location.Cluster s.Location.Host s.Location.ResourcePool = none
                ∧ ∃ t err, d.FindVM s.Config.Template = (t, some err))
            ∨ (d.PreCleanVM ui (pathJoin s.Location.Folder s.Location.VMName) s.Force
                  s.Location.Cluster s.Location.Host s.Location.ResourcePool = none
                ∧ ∃ template v err, d.FindVM s.Config.Template = (some template, none)
                    ∧ template.Clone ctx (s.cloneConfig caseTable) = (v, some err))))
      ∧ (res.action = .ActionHalt ↔
          ((∃ v, Event.Put "error" v ∈ res.trace)
            ∨ (d.PreCleanVM ui (pathJoin s.Location.Folder s.Location.VMName) s.Force
                  s.Location.Cluster s.Location.Host s.Location.ResourcePool = none
                ∧ ∃ template, d.FindVM s.Config.Template = (some template, none)
                    ∧ template.Clone ctx (s.cloneConfig caseTable) = (none, none)))) := by
  rcases Run_cases_at pathJoin caseTable s ctx state res ui d hui hd h with
    ⟨err, hpre, rfl⟩ | ⟨hpre, t, err, hfind, rfl⟩ | ⟨hpre, tm, hfind, hc⟩
  · refine ⟨fun k _ h2 _ => by simp [Get_Put, h2], by simp [Get_Put], by simp [Get_Put],
      ?_, ⟨fun _ => Or.inl ⟨err, hpre⟩, fun _ => ⟨.error err, by simp⟩⟩,
      ⟨fun _ => Or.inl ⟨.error err, by simp⟩, fun _ => rfl⟩⟩
    intro k v hv
    simp at hv
    exact Or.inr (Or.inl hv.1)
  · refine ⟨fun k _ h2 _ => by simp [Get_Put, h2], by simp [Get_Put], by simp [Get_Put],
      ?_, ⟨fun _ => Or.inr (Or.inl ⟨hpre, t, err, hfind⟩),
        fun _ => ⟨.error (.errorString ("Error finding vm to clone: " ++ err.Error)),
          by simp⟩⟩,
      ⟨fun _ => Or.inl ⟨.error (.errorString ("Error finding vm to clone: " ++ err.Error)),
        by simp⟩, fun _ => rfl⟩⟩
    intro k v hv
    simp at hv
    exact Or.inr (Or.inl hv.1)
  · have htm : ∀ template, d.FindVM s.Config.Template = (some template, none) →
        template = tm := by
      intro template hf
      rw [hfind] at hf
      cases hf
      rfl
    have hnoerr : ∀ (p : Prop), ((∃ err',
          d.PreCleanVM ui (pathJoin s.Location.Folder s.Location.VMName) s.Force
            s.Location.Cluster s.Location.Host s.Location.ResourcePool = some err')
        ∨ (d.PreCleanVM ui (pathJoin s.Location.Folder s.Location.VMName) s.Force
              s.Location.Cluster s.Location.Host s.Location.ResourcePool = none
            ∧ ∃ t' err', d.FindVM s.Config.Template = (t', some err'))
        ∨ p) → p := by
      intro p hp
      rcases hp with ⟨err', he⟩ | ⟨-, t', err', hf⟩ | hp
      · rw [hpre] at he
        cases he
      · rw [hfind] at hf
        cases hf
      · exact hp
    rcases hc with ⟨v, err, hclone, rfl⟩ | ⟨hclone, rfl⟩ | ⟨vm, hclone, hflag, rfl⟩ |
      ⟨vm, hclone, hflag, rfl⟩
    · refine ⟨fun k _ h2 _ => by simp [Get_Put, h2], by simp [Get_Put], by simp [Get_Put],
        ?_, ⟨fun _ => Or.inr (Or.inr ⟨hpre, tm, v, err, hfind, hclone⟩),
          fun _ => ⟨.error err, by simp⟩⟩,
        ⟨fun _ => Or.inl ⟨.error err, by simp⟩, fun _ => rfl⟩⟩
      intro k w hw
      simp at hw
      exact Or.inr (Or.inl hw.1)
    · refine ⟨fun k _ _ _ => rfl, rfl, rfl, ?_, ⟨fun ⟨w, hw⟩ => by simp at hw, ?_⟩,
        ⟨fun _ => Or.inr ⟨hpre, tm, hfind, hclone⟩, fun _ => rfl⟩⟩
      · intro k w hw
        simp at hw
      · intro hp
        obtain ⟨-, template, v, err, hf, hcl⟩ := hnoerr _ hp
        have := htm template hf
        subst this
        rw [hclone] at hcl
        cases hcl
    · refine ⟨fun k h1 _ h3 => by simp [Get_Put, h1, h3], by simp [Get_Put],
        by simp [Get_Put], ?_, ⟨fun ⟨w, hw⟩ => by simp at hw, ?_⟩,
        ⟨fun hact => (by cases hact), ?_⟩⟩
      · intro k w hw
        simp at hw
        rcases hw with hw | hw
        · exact Or.inr (Or.inr hw.1)
        · exact Or.inl hw.1
      · intro hp
        obtain ⟨-, template, v, err, hf, hcl⟩ := hnoerr _ hp
        have := htm template hf
        subst this
        rw [hclone] at hcl
        cases hcl
      · rintro (⟨w, hw⟩ | ⟨-, template, hf, hcl⟩)
        · simp at hw
        · have := htm template hf
          subst this
          rw [hclone] at hcl
          cases hcl
    · refine ⟨fun k h1 _ _ => by simp [Get_Put, h1], by simp [Get_Put],
        by simp [Get_Put], ?_, ⟨fun ⟨w, hw⟩ => by simp at hw, ?_⟩,
        ⟨fun hact => (by cases hact), ?_⟩⟩
      · intro k w hw
        simp at hw
        exact Or.inl hw.1
      · intro hp
        obtain ⟨-, template, v, err, hf, hcl⟩ := hnoerr _ hp
        have := htm template hf
        subst this
        rw [hclone] at hcl
        cases hcl
      · rintro (⟨w, hw⟩ | ⟨-, template, hf, hcl⟩)
        · simp at hw
        · have := htm template hf
          subst this
          rw [hclone] at hcl
          cases hcl

/-- C16, on a successful run with `Destroy` set, from a state bag with a key of
an earlier step: that key, "ui" and "driver" keep their values, and nothing is
written under "error". -/
theorem Run_writes_only_witness :
    ∃ res,
      (sampleStep destroyConfig).Run slashJoin id ⟨7⟩ (richState okDriver) = some res
        ∧ res.state.Get "vm_name" = (richState okDriver).Get "vm_name"
        ∧ res.state.Get "ui" = (richState okDriver).Get "ui"
        ∧ res.state.Get "driver" = (richState okDriver).Get "driver"
        ∧ (∀ k v, Event.Put k v ∈ res.trace → k = "vm" ∨ k = "error" ∨ k = "destroy_vm") := by
  have hw := Run_writes_only slashJoin id (sampleStep destroyConfig) ⟨7⟩ (richState okDriver)
    _ ⟨1⟩ okDriver rfl rfl rfl
  exact ⟨_, rfl, hw.1 "vm_name" (by decide) (by decide) (by decide), hw.2.1, hw.2.2.1,
    hw.2.2.2.1⟩

/-- C19, as stated, fails: with a driver whose pre-clean returns no error and
whose template lookup returns neither a virtual machine nor an error, the
clone call is never made and the run panics, so it returns neither Continue
nor Halt; and so does a run on a state bag that holds no driver. -/
theorem Run_panics_on_nil_template :
    nilFindDriver.PreCleanVM ⟨1⟩ (slashJoin "builds" "clone-01") false "cluster-a" "esx-1"
        "pool-1" = none
      ∧ nilFindDriver.FindVM "base-vm" = (none, none)
      ∧ (sampleStep validConfig).Run slashJoin id ⟨7⟩ (sampleState nilFindDriver) = none
      ∧ (¬ ∃ res,
          (sampleStep validConfig).Run slashJoin id ⟨7⟩ (sampleState nilFindDriver) = some res
            ∧ res.action = .ActionHalt)
      ∧ (sampleStep validConfig).Run slashJoin id ⟨7⟩ emptyState = none := by
  refine ⟨rfl, rfl, rfl, ?_, rfl⟩
  rintro ⟨res, hres, -⟩
  have hnone : (sampleStep validConfig).Run slashJoin id ⟨7⟩ (sampleState nilFindDriver) =
      none := rfl
  rw [hnone] at hres
  cases hres

/-- C19 (amended): for every state bag that holds a user interface under "ui"
and a driver under "driver", and every driver whose `FindVM` returns a virtual
machine or an error, `Run` returns; it returns Continue exactly when it writes
the "vm" key; it never writes both "vm" and "error"; it returns Continue
exactly when PreCleanVM, FindVM and Clone return no error and Clone returns a
virtual machine; and it returns Halt in every other case. -/
theorem Run_continue_iff (pathJoin : String → String → String) (caseTable : Char → Char)
    (s : StepCloneVM) (ctx : Context) (state : StateBag) (ui : Ui) (d : Driver)
    (hui : state.Get "ui" = some (.ui ui)) (hd : state.Get "driver" = some (.driver d))
    (hfound : d.FindVM s.Config.Template ≠ (none, none)) :
    ∃ res, s.Run pathJoin caseTable ctx state = some res
      ∧ (res.action = .ActionContinue ↔ ∃ v, Event.Put "vm" v ∈ res.trace)
      ∧ ¬ ((∃ v, Event.Put "vm" v ∈ res.trace) ∧ (∃ v, Event.Put "error" v ∈ res.trace))
      ∧ (res.action = .ActionContinue ↔
          (d.PreCleanVM ui (pathJoin s.Location.Folder s.Location.VMName) s.Force
              s.Location.Cluster s.Location.Host s.Location.ResourcePool = none
            ∧ ∃ template vm, d.FindVM s.Config.Template = (some template, none)
                ∧ template.Clone ctx (s.cloneConfig caseTable) = (some vm, none)))
      ∧ (¬ (d.PreCleanVM ui (pathJoin s.Location.Folder s.Location.VMName) s.Force
              s.Location.Cluster s.Location.Host s.Location.ResourcePool = none
            ∧ ∃ template vm, d.FindVM s.Config.Template = (some template, none)
                ∧ template.Clone ctx (s.cloneConfig caseTable) = (some vm, none)) →
          res.action = .ActionHalt) := by
  obtain ⟨res, h⟩ := Run_returns pathJoin caseTable s ctx state ui d hui hd hfound
  refine ⟨res, h, ?_⟩
  rcases Run_cases_at pathJoin caseTable s ctx state res ui d hui hd h with
    ⟨err, hpre, rfl⟩ | ⟨hpre, t, err, hfind, rfl⟩ | ⟨hpre, tm, hfind, hc⟩
  · refine ⟨⟨fun hact => (by cases hact), fun ⟨v, hv⟩ => (by simp at hv)⟩,
      fun ⟨⟨v, hv⟩, _⟩ => (by simp at hv), ⟨fun hact => (by cases hact), ?_⟩, fun _ => rfl⟩
    rintro ⟨hp, -⟩
    rw [hpre] at hp
    cases hp
  · refine ⟨⟨fun hact => (by cases hact), fun ⟨v, hv⟩ => (by simp at hv)⟩,
      fun ⟨⟨v, hv⟩, _⟩ => (by simp at hv), ⟨fun hact => (by cases hact), ?_⟩, fun _ => rfl⟩
    rintro ⟨-, template, vm, hf, -⟩
    rw [hfind] at hf
    cases hf
  · have htm : ∀ template, d.FindVM s.Config.Template = (some template, none) →
        template = tm := by
      intro template hf
      rw [hfind] at hf
      cases hf
      rfl
    rcases hc with ⟨v, err, hclone, rfl⟩ | ⟨hclone, rfl⟩ | ⟨vm, hclone, hflag, rfl⟩ |
      ⟨vm, hclone, hflag, rfl⟩
    · refine ⟨⟨fun hact => (by cases hact), fun ⟨v, hv⟩ => (by simp at hv)⟩,
        fun ⟨⟨v, hv⟩, _⟩ => (by simp at hv), ⟨fun hact => (by cases hact), ?_⟩,
        fun _ => rfl⟩
      rintro ⟨-, template, vm, hf, hcl⟩
      have := htm template hf
      subst this
      rw [hclone] at hcl
      cases hcl
    · refine ⟨⟨fun hact => (by cases hact), fun ⟨v, hv⟩ => (by simp at hv)⟩,
        fun ⟨⟨v, hv⟩, _⟩ => (by simp at hv), ⟨fun hact => (by cases hact), ?_⟩,
        fun _ => rfl⟩
      rintro ⟨-, template, vm, hf, hcl⟩
      have := htm template hf
      subst this
      rw [hclone] at hcl
      cases hcl
    · refine ⟨⟨fun _ => ⟨.vm vm, by simp⟩, fun _ => rfl⟩,
        fun ⟨_, ⟨v, hv⟩⟩ => (by simp at hv),
        ⟨fun _ => ⟨hpre, tm, vm, hfind, hclone⟩, fun _ => rfl⟩, ?_⟩
      intro hn
      exact absurd ⟨hpre, tm, vm, hfind, hclone⟩ hn
    · refine ⟨⟨fun _ => ⟨.vm vm, by simp⟩, fun _ => rfl⟩,
        fun ⟨_, ⟨v, hv⟩⟩ => (by simp at hv),
        ⟨fun _ => ⟨hpre, tm, vm, hfind, hclone⟩, fun _ => rfl⟩, ?_⟩
      intro hn
      exact absurd ⟨hpre, tm, vm, hfind, hclone⟩ hn

/-- C19 (amended), on a successful run (Continue, "vm" written) and on a run
whose clone call returns nothing (Halt, nothing written). -/
theorem Run_continue_iff_witness :
    (∃ res, (sampleStep validConfig).Run slashJoin id ⟨7⟩ (sampleState okDriver) = some res
        ∧ res.action = .ActionContinue
        ∧ ∃ v, Event.Put "vm" v ∈ res.trace)
      ∧ ∃ res,
          (sampleStep validConfig).Run slashJoin id ⟨7⟩ (sampleState silentCloneDriver) =
              some res
            ∧ res.action = .ActionHalt
            ∧ ¬ ∃ v, Event.Put "vm" v ∈ res.trace := by
  obtain ⟨res, hrun, hvm, -, -, -⟩ :=
    Run_continue_iff slashJoin id (sampleStep validConfig) ⟨7⟩ (sampleState okDriver) ⟨1⟩
      okDriver rfl rfl (by simp [okDriver])
  obtain ⟨res', hrun', hvm', -, -, hhalt⟩ :=
    Run_continue_iff slashJoin id (sampleStep validConfig) ⟨7⟩ (sampleState silentCloneDriver)
      ⟨1⟩ silentCloneDriver rfl rfl (by simp [silentCloneDriver])
  have hok : (sampleStep validConfig).Run slashJoin id ⟨7⟩ (sampleState okDriver) =
      some ⟨.ActionContinue, (sampleState okDriver).Put "vm" (.vm clonedVM),
        [.PreCleanVM ⟨1⟩ (slashJoin "builds" "clone-01") false "cluster-a" "esx-1" "pool-1",
          .Say ⟨1⟩ "Cloning VM...", .FindVM "base-vm",
          .Clone templateVM ⟨7⟩ ((sampleStep validConfig).cloneConfig id),
          .Put "vm" (.vm clonedVM)], sampleStep validConfig⟩ := rfl
  have hact : res.action = .ActionContinue := by
    rw [hok] at hrun
    cases hrun
    rfl
  have hsilent : (sampleStep validConfig).Run slashJoin id ⟨7⟩
      (sampleState silentCloneDriver) =
      some ⟨.ActionHalt, sampleState silentCloneDriver,
        [.PreCleanVM ⟨1⟩ (slashJoin "builds" "clone-01") false "cluster-a" "esx-1" "pool-1",
          .Say ⟨1⟩ "Cloning VM...", .FindVM "base-vm",
          .Clone silentTemplateVM ⟨7⟩ ((sampleStep validConfig).cloneConfig id)],
        sampleStep validConfig⟩ := rfl
  have hact' : res'.action = .ActionHalt := by
    rw [hsilent] at hrun'
    cases hrun'
    rfl
  refine ⟨⟨res, hrun, hact, hvm.1 hact⟩, res', hrun', hact', ?_⟩
  intro hw
  have hcont := hvm'.2 hw
  rw [hact'] at hcont
  cases hcont

end Clone
